import Mathlib

/-!
# caddy-gcs: a caching proxy in front of object-storage buckets

A shallow embedding of `stats.go`, `handler.go`, `metrics.go`, `config.go` and `setup.go`.

* Go values are Lean values, `uint64` is `Nat` with an explicit `% 2^64`.
* A `sync.Mutex` is a `Bool` (`true` = locked).  `Unlock` of an unlocked mutex is
  the Go runtime's unrecoverable `fatal error: sync: unlock of unlocked mutex`;
  `Lock` of a locked mutex does not proceed.  Both end the modelled call with a
  `Fault` instead of a result.
* Calls into collaborators (lock table, cache store, metrics, backends, the next
  handler) are recorded, in program order, as a list of `Event`s.
-/

namespace GcsProxy

/-! ## stats.go -/

/-- The ways a modelled call ends without returning to its caller. -/
inductive Fault where
  /-- Go runtime: `fatal error: sync: unlock of unlocked mutex` (terminates the process). -/
  | unlockOfUnlockedMutex
  /-- A `Lock` on a mutex that is already held: the caller does not proceed. -/
  | blockedOnLockedMutex
  /-- Go runtime panic: nil pointer dereference. -/
  | nilPointerDereference
  /-- The panic of prometheus `WithLabelValues` when the number of label values differs
  from the number of label names of the vector (inconsistent label cardinality). -/
  | inconsistentLabelCardinality
  deriving DecidableEq, Repr

/-- Go `const MaxUint64 = ^uint64(0)`. -/
def MaxUint64 : Nat := 2 ^ 64 - 1

/-- Go `sync.Mutex.Lock`, on the mutex state (`true` = locked). -/
def mutexLock (locked : Bool) : Except Fault Bool :=
  if locked then .error .blockedOnLockedMutex else .ok true

/-- Go `sync.Mutex.Unlock`, on the mutex state (`true` = locked). -/
def mutexUnlock (locked : Bool) : Except Fault Bool :=
  if locked then .ok false else .error .unlockOfUnlockedMutex

/-- Go `type Stats struct`: five counters, each with the mutex declared next to it. -/
structure Stats where
  Size : Nat
  Hit : Nat
  hitMutex : Bool
  Miss : Nat
  missMutex : Bool
  Error : Nat
  errorMutex : Bool
  Skip : Nat
  skipMutex : Bool
  Bypass : Nat
  bypassMutex : Bool
  deriving DecidableEq, Repr

/-- Go `NewStats` / `&Stats{}`: the zero value. -/
def NewStats : Stats :=
  { Size := 0, Hit := 0, hitMutex := false, Miss := 0, missMutex := false,
    Error := 0, errorMutex := false, Skip := 0, skipMutex := false,
    Bypass := 0, bypassMutex := false }

/-- Go `func (s *Stats) reset()`, statement by statement. -/
def Stats.reset (s : Stats) : Except Fault Stats := do
  let m ← mutexLock s.hitMutex          -- s.hitMutex.Lock()
  let s := { s with hitMutex := m }
  let s := { s with Hit := 0 }          -- s.Hit = 0
  let m ← mutexUnlock s.hitMutex        -- s.hitMutex.Unlock()
  let s := { s with hitMutex := m }
  let m ← mutexLock s.missMutex         -- s.missMutex.Lock()
  let s := { s with missMutex := m }
  let s := { s with Miss := 0 }         -- s.Miss = 0
  let m ← mutexUnlock s.missMutex       -- s.missMutex.Unlock()
  let s := { s with missMutex := m }
  let m ← mutexLock s.skipMutex         -- s.skipMutex.Lock()
  let s := { s with skipMutex := m }
  let s := { s with Skip := 0 }         -- s.Skip = 0
  let m ← mutexUnlock s.errorMutex      -- s.errorMutex.Unlock()
  let s := { s with errorMutex := m }
  let m ← mutexLock s.bypassMutex       -- s.bypassMutex.Lock()
  let s := { s with bypassMutex := m }
  let s := { s with Bypass := 0 }       -- s.Bypass = 0
  let m ← mutexUnlock s.bypassMutex     -- s.bypassMutex.Unlock()
  let s := { s with bypassMutex := m }
  let m ← mutexLock s.errorMutex        -- s.errorMutex.Lock()
  let s := { s with errorMutex := m }
  let s := { s with Error := 0 }        -- s.Error = 0
  let m ← mutexUnlock s.errorMutex      -- s.errorMutex.Unlock()
  let s := { s with errorMutex := m }
  pure s

/-- Go `func (s *Stats) Inc(status string)`, statement by statement. -/
def Stats.Inc (s : Stats) (status : String) : Except Fault Stats :=
  if status = "hit" then do
    let s ← if s.Hit = MaxUint64 then s.reset else pure s
    let m ← mutexLock s.hitMutex        -- s.hitMutex.Lock()
    let s := { s with hitMutex := m }
    let s := { s with Hit := (s.Hit + 1) % 2 ^ 64 }
    let m ← mutexUnlock s.hitMutex      -- s.hitMutex.Unlock()
    pure { s with hitMutex := m }
  else if status = "miss" then do
    let s ← if s.Miss = MaxUint64 then s.reset else pure s
    let m ← mutexLock s.missMutex       -- s.missMutex.Lock()
    let s := { s with missMutex := m }
    let s := { s with Miss := (s.Miss + 1) % 2 ^ 64 }
    let m ← mutexUnlock s.missMutex     -- s.missMutex.Unlock()
    pure { s with missMutex := m }
  else if status = "skip" then do
    let s ← if s.Skip = MaxUint64 then s.reset else pure s
    let m ← mutexLock s.skipMutex       -- s.skipMutex.Lock()
    let s := { s with skipMutex := m }
    let s := { s with Skip := (s.Skip + 1) % 2 ^ 64 }
    let m ← mutexUnlock s.errorMutex    -- s.errorMutex.Unlock()
    pure { s with errorMutex := m }
  else if status = "bypass" then do
    let s ← if s.Bypass = MaxUint64 then s.reset else pure s
    let m ← mutexLock s.bypassMutex     -- s.bypassMutex.Lock()
    let s := { s with bypassMutex := m }
    let s := { s with Bypass := (s.Bypass + 1) % 2 ^ 64 }
    let m ← mutexUnlock s.bypassMutex   -- s.bypassMutex.Unlock()
    pure { s with bypassMutex := m }
  else if status = "error" then do
    let s ← if s.Error = MaxUint64 then s.reset else pure s
    let m ← mutexLock s.errorMutex      -- s.errorMutex.Lock()
    let s := { s with errorMutex := m }
    let s := { s with Error := (s.Error + 1) % 2 ^ 64 }
    let m ← mutexUnlock s.errorMutex    -- s.errorMutex.Unlock()
    pure { s with errorMutex := m }
  else
    pure s

/-- The counter that `Stats.Inc` addresses under a classification string. -/
def Stats.counter (s : Stats) (status : String) : Nat :=
  if status = "hit" then s.Hit
  else if status = "miss" then s.Miss
  else if status = "skip" then s.Skip
  else if status = "bypass" then s.Bypass
  else if status = "error" then s.Error
  else 0

/-- The mutex declared as the guard of a classification's counter. -/
def Stats.guard (s : Stats) (status : String) : Bool :=
  if status = "hit" then s.hitMutex
  else if status = "miss" then s.missMutex
  else if status = "skip" then s.skipMutex
  else if status = "bypass" then s.bypassMutex
  else if status = "error" then s.errorMutex
  else false

/-- The five classifications. -/
def classifications : List String := ["hit", "miss", "skip", "bypass", "error"]

/-- All five mutexes are unlocked. -/
def Stats.quiescent (s : Stats) : Prop :=
  s.hitMutex = false ∧ s.missMutex = false ∧ s.errorMutex = false ∧
  s.skipMutex = false ∧ s.bypassMutex = false

instance (s : Stats) : Decidable s.quiescent := by
  unfold Stats.quiescent; infer_instance

/-! ## Go library functions used by handler.go -/

/-- Go `error` values, identified by their message; `nil` is `none`. -/
abbrev Error := String

/-- Body bytes. -/
abbrev Bytes := List Nat

/-- The lower-case mappings of the runes above U+007F: `(lo, hi, stride, target)` maps
the runes `lo, lo + stride, ..., hi` to `target, target + stride, ...`.  These are the
simple lower-case mappings of the Unicode character database (1407 runes), which the
case tables of Go's `unicode` package hold. -/
def lowerRanges : List (Nat × Nat × Nat × Nat) :=
  [(0xC0, 0xD6, 1, 0xE0), (0xD8, 0xDE, 1, 0xF8), (0x100, 0x12E, 2, 0x101),
   (0x130, 0x130, 1, 0x69), (0x132, 0x136, 2, 0x133), (0x139, 0x147, 2, 0x13A),
   (0x14A, 0x176, 2, 0x14B), (0x178, 0x178, 1, 0xFF), (0x179, 0x17D, 2, 0x17A),
   (0x181, 0x181, 1, 0x253), (0x182, 0x184, 2, 0x183), (0x186, 0x186, 1, 0x254),
   (0x187, 0x187, 1, 0x188), (0x189, 0x18A, 1, 0x256), (0x18B, 0x18B, 1, 0x18C),
   (0x18E, 0x18E, 1, 0x1DD), (0x18F, 0x18F, 1, 0x259), (0x190, 0x190, 1, 0x25B),
   (0x191, 0x191, 1, 0x192), (0x193, 0x193, 1, 0x260), (0x194, 0x194, 1, 0x263),
   (0x196, 0x196, 1, 0x269), (0x197, 0x197, 1, 0x268), (0x198, 0x198, 1, 0x199),
   (0x19C, 0x19C, 1, 0x26F), (0x19D, 0x19D, 1, 0x272), (0x19F, 0x19F, 1, 0x275),
   (0x1A0, 0x1A4, 2, 0x1A1), (0x1A6, 0x1A6, 1, 0x280), (0x1A7, 0x1A7, 1, 0x1A8),
   (0x1A9, 0x1A9, 1, 0x283), (0x1AC, 0x1AC, 1, 0x1AD), (0x1AE, 0x1AE, 1, 0x288),
   (0x1AF, 0x1AF, 1, 0x1B0), (0x1B1, 0x1B2, 1, 0x28A), (0x1B3, 0x1B5, 2, 0x1B4),
   (0x1B7, 0x1B7, 1, 0x292), (0x1B8, 0x1B8, 1, 0x1B9), (0x1BC, 0x1BC, 1, 0x1BD),
   (0x1C4, 0x1C4, 1, 0x1C6), (0x1C5, 0x1C5, 1, 0x1C6), (0x1C7, 0x1C7, 1, 0x1C9),
   (0x1C8, 0x1C8, 1, 0x1C9), (0x1CA, 0x1CA, 1, 0x1CC), (0x1CB, 0x1DB, 2, 0x1CC),
   (0x1DE, 0x1EE, 2, 0x1DF), (0x1F1, 0x1F1, 1, 0x1F3), (0x1F2, 0x1F4, 2, 0x1F3),
   (0x1F6, 0x1F6, 1, 0x195), (0x1F7, 0x1F7, 1, 0x1BF), (0x1F8, 0x21E, 2, 0x1F9),
   (0x220, 0x220, 1, 0x19E), (0x222, 0x232, 2, 0x223), (0x23A, 0x23A, 1, 0x2C65),
   (0x23B, 0x23B, 1, 0x23C), (0x23D, 0x23D, 1, 0x19A), (0x23E, 0x23E, 1, 0x2C66),
   (0x241, 0x241, 1, 0x242), (0x243, 0x243, 1, 0x180), (0x244, 0x244, 1, 0x289),
   (0x245, 0x245, 1, 0x28C), (0x246, 0x24E, 2, 0x247), (0x370, 0x372, 2, 0x371),
   (0x376, 0x376, 1, 0x377), (0x37F, 0x37F, 1, 0x3F3), (0x386, 0x386, 1, 0x3AC),
   (0x388, 0x38A, 1, 0x3AD), (0x38C, 0x38C, 1, 0x3CC), (0x38E, 0x38F, 1, 0x3CD),
   (0x391, 0x3A1, 1, 0x3B1), (0x3A3, 0x3AB, 1, 0x3C3), (0x3CF, 0x3CF, 1, 0x3D7),
   (0x3D8, 0x3EE, 2, 0x3D9), (0x3F4, 0x3F4, 1, 0x3B8), (0x3F7, 0x3F7, 1, 0x3F8),
   (0x3F9, 0x3F9, 1, 0x3F2), (0x3FA, 0x3FA, 1, 0x3FB), (0x3FD, 0x3FF, 1, 0x37B),
   (0x400, 0x40F, 1, 0x450), (0x410, 0x42F, 1, 0x430), (0x460, 0x480, 2, 0x461),
   (0x48A, 0x4BE, 2, 0x48B), (0x4C0, 0x4C0, 1, 0x4CF), (0x4C1, 0x4CD, 2, 0x4C2),
   (0x4D0, 0x52E, 2, 0x4D1), (0x531, 0x556, 1, 0x561), (0x10A0, 0x10C5, 1, 0x2D00),
   (0x10C7, 0x10C7, 1, 0x2D27), (0x10CD, 0x10CD, 1, 0x2D2D), (0x13A0, 0x13EF, 1, 0xAB70),
   (0x13F0, 0x13F5, 1, 0x13F8), (0x1C90, 0x1CBA, 1, 0x10D0), (0x1CBD, 0x1CBF, 1, 0x10FD),
   (0x1E00, 0x1E94, 2, 0x1E01), (0x1E9E, 0x1E9E, 1, 0xDF), (0x1EA0, 0x1EFE, 2, 0x1EA1),
   (0x1F08, 0x1F0F, 1, 0x1F00), (0x1F18, 0x1F1D, 1, 0x1F10), (0x1F28, 0x1F2F, 1, 0x1F20),
   (0x1F38, 0x1F3F, 1, 0x1F30), (0x1F48, 0x1F4D, 1, 0x1F40), (0x1F59, 0x1F5F, 2, 0x1F51),
   (0x1F68, 0x1F6F, 1, 0x1F60), (0x1F88, 0x1F8F, 1, 0x1F80), (0x1F98, 0x1F9F, 1, 0x1F90),
   (0x1FA8, 0x1FAF, 1, 0x1FA0), (0x1FB8, 0x1FB9, 1, 0x1FB0), (0x1FBA, 0x1FBB, 1, 0x1F70),
   (0x1FBC, 0x1FBC, 1, 0x1FB3), (0x1FC8, 0x1FCB, 1, 0x1F72), (0x1FCC, 0x1FCC, 1, 0x1FC3),
   (0x1FD8, 0x1FD9, 1, 0x1FD0), (0x1FDA, 0x1FDB, 1, 0x1F76), (0x1FE8, 0x1FE9, 1, 0x1FE0),
   (0x1FEA, 0x1FEB, 1, 0x1F7A), (0x1FEC, 0x1FEC, 1, 0x1FE5), (0x1FF8, 0x1FF9, 1, 0x1F78),
   (0x1FFA, 0x1FFB, 1, 0x1F7C), (0x1FFC, 0x1FFC, 1, 0x1FF3), (0x2126, 0x2126, 1, 0x3C9),
   (0x212A, 0x212A, 1, 0x6B), (0x212B, 0x212B, 1, 0xE5), (0x2132, 0x2132, 1, 0x214E),
   (0x2160, 0x216F, 1, 0x2170), (0x2183, 0x2183, 1, 0x2184), (0x24B6, 0x24CF, 1, 0x24D0),
   (0x2C00, 0x2C2F, 1, 0x2C30), (0x2C60, 0x2C60, 1, 0x2C61), (0x2C62, 0x2C62, 1, 0x26B),
   (0x2C63, 0x2C63, 1, 0x1D7D), (0x2C64, 0x2C64, 1, 0x27D), (0x2C67, 0x2C6B, 2, 0x2C68),
   (0x2C6D, 0x2C6D, 1, 0x251), (0x2C6E, 0x2C6E, 1, 0x271), (0x2C6F, 0x2C6F, 1, 0x250),
   (0x2C70, 0x2C70, 1, 0x252), (0x2C72, 0x2C72, 1, 0x2C73), (0x2C75, 0x2C75, 1, 0x2C76),
   (0x2C7E, 0x2C7F, 1, 0x23F), (0x2C80, 0x2CE2, 2, 0x2C81), (0x2CEB, 0x2CED, 2, 0x2CEC),
   (0x2CF2, 0x2CF2, 1, 0x2CF3), (0xA640, 0xA66C, 2, 0xA641), (0xA680, 0xA69A, 2, 0xA681),
   (0xA722, 0xA72E, 2, 0xA723), (0xA732, 0xA76E, 2, 0xA733), (0xA779, 0xA77B, 2, 0xA77A),
   (0xA77D, 0xA77D, 1, 0x1D79), (0xA77E, 0xA786, 2, 0xA77F), (0xA78B, 0xA78B, 1, 0xA78C),
   (0xA78D, 0xA78D, 1, 0x265), (0xA790, 0xA792, 2, 0xA791), (0xA796, 0xA7A8, 2, 0xA797),
   (0xA7AA, 0xA7AA, 1, 0x266), (0xA7AB, 0xA7AB, 1, 0x25C), (0xA7AC, 0xA7AC, 1, 0x261),
   (0xA7AD, 0xA7AD, 1, 0x26C), (0xA7AE, 0xA7AE, 1, 0x26A), (0xA7B0, 0xA7B0, 1, 0x29E),
   (0xA7B1, 0xA7B1, 1, 0x287), (0xA7B2, 0xA7B2, 1, 0x29D), (0xA7B3, 0xA7B3, 1, 0xAB53),
   (0xA7B4, 0xA7C2, 2, 0xA7B5), (0xA7C4, 0xA7C4, 1, 0xA794), (0xA7C5, 0xA7C5, 1, 0x282),
   (0xA7C6, 0xA7C6, 1, 0x1D8E), (0xA7C7, 0xA7C9, 2, 0xA7C8), (0xA7D0, 0xA7D0, 1, 0xA7D1),
   (0xA7D6, 0xA7D8, 2, 0xA7D7), (0xA7F5, 0xA7F5, 1, 0xA7F6), (0xFF21, 0xFF3A, 1, 0xFF41),
   (0x10400, 0x10427, 1, 0x10428), (0x104B0, 0x104D3, 1, 0x104D8),
   (0x10570, 0x1057A, 1, 0x10597), (0x1057C, 0x1058A, 1, 0x105A3),
   (0x1058C, 0x10592, 1, 0x105B3), (0x10594, 0x10595, 1, 0x105BB),
   (0x10C80, 0x10CB2, 1, 0x10CC0), (0x118A0, 0x118BF, 1, 0x118C0),
   (0x16E40, 0x16E5F, 1, 0x16E60), (0x1E900, 0x1E921, 1, 0x1E922)]

/-- Go `unicode.ToLower`: `A`..`Z` become `a`..`z`, the other ASCII runes stay, and a
rune above U+007F goes through the case table. -/
def unicode.ToLower (c : Char) : Char :=
  if c.toNat ≤ 0x7F then c.toLower
  else
    match lowerRanges.find? (fun s =>
      s.1 ≤ c.toNat && c.toNat ≤ s.2.1 && (c.toNat - s.1) % s.2.2.1 == 0) with
    | some s => Char.ofNat (s.2.2.2 + (c.toNat - s.1))
    | none => c

/-- Go `strings.ToLower`: `unicode.ToLower` on every rune. -/
def strings.ToLower (s : String) : String := String.mk (s.data.map unicode.ToLower)

/-- Go `strings.Contains(s, substr)` for a one-character `substr`. -/
def strings.Contains (s : String) (c : Char) : Bool := s.data.contains c

/-- Go `strings.TrimLeft(s, cutset)`: drop every leading character that is in `cutset`. -/
def strings.TrimLeft (s cutset : String) : String :=
  String.mk (s.data.dropWhile (fun c => cutset.data.contains c))

/-- Go `strconv.Itoa`. -/
def strconv.Itoa (n : Int) : String := toString n

/-- The bytes `net/textproto` accepts in a header field name (RFC 7230 token characters). -/
def validHeaderFieldByte (c : Char) : Bool :=
  c.isAlphanum || "!#$%&*+-.^_|~".data.contains c || c = Char.ofNat 39 || c = Char.ofNat 96

/-- The loop of `textproto.canonicalMIMEHeaderKey`: upper-case the first letter and every
letter after a hyphen, lower-case the others. -/
def canonicalLoop : Bool → List Char → List Char
  | _, [] => []
  | upper, c :: cs =>
    (if upper then c.toUpper else c.toLower) :: canonicalLoop (c = Char.ofNat 45) cs

/-- Go `textproto.CanonicalMIMEHeaderKey`: a key with a byte outside the token characters is
returned unchanged. -/
def CanonicalMIMEHeaderKey (s : String) : String :=
  if s.data.all validHeaderFieldByte then String.mk (canonicalLoop true s.data) else s

/-- Go `http.Header`: a map from field name to the list of its values. -/
abbrev Header := List (String × List String)

/-- Go `http.Header.Get`: the first value under the canonical form of `key`, or `""`. -/
def Header.Get (h : Header) (key : String) : String :=
  match h.lookup (CanonicalMIMEHeaderKey key) with
  | some (v :: _) => v
  | _ => ""

/-- Append `value` to the values stored under the exact key `key`. -/
def Header.append : Header → String → String → Header
  | [], key, value => [(key, [value])]
  | (k, vs) :: rest, key, value =>
    if k = key then (k, vs ++ [value]) :: rest else (k, vs) :: Header.append rest key value

/-- Go `http.Header.Add`: append `value` under the canonical form of `key`. -/
def Header.Add (h : Header) (key value : String) : Header :=
  Header.append h (CanonicalMIMEHeaderKey key) value

/-! ## config.go, metrics.go: the configuration object -/

/-- Go `type googleCloudCredential struct`. -/
structure googleCloudCredential where
  GoogleAccessID : String
  PrivateKey : String
  deriving DecidableEq, Repr

/-- Go `type Bucket struct`. -/
structure Bucket where
  Name : String
  Credentials : googleCloudCredential
  deriving DecidableEq, Repr

/-- Go `type extraLabel struct`. -/
structure extraLabel where
  name : String
  value : String
  deriving DecidableEq, Repr

/-- Go `type Metrics struct` (the configuration fields). -/
structure Metrics where
  addr : String
  useCaddyAddr : Bool
  hostname : String
  path : String
  extraLabels : List extraLabel
  deriving DecidableEq, Repr

/-- Go `(m *Metrics) extraLabelNames`. -/
def Metrics.extraLabelNames (m : Metrics) : List String :=
  m.extraLabels.map (fun label => label.name)

/-- The label names of the five metric vectors that `Metrics.define` assigns to the
package variables. -/
structure Vectors where
  requestCount : List String
  gcsRequestDuration : List String
  responseSize : List String
  responseStatus : List String
  responseLatency : List String
  deriving DecidableEq, Repr

/-- Go `(m Metrics) define`: every vector gets its fixed label names followed by the
names of the extra labels of the configuration. -/
def Metrics.define (m : Metrics) : Vectors :=
  let extraLabels := m.extraLabelNames
  { requestCount := ["host", "family", "proto"] ++ extraLabels,
    gcsRequestDuration := ["host", "family", "proto"] ++ extraLabels,
    responseSize := ["host", "family", "proto", "status"] ++ extraLabels,
    responseStatus := ["host", "family", "proto", "status"] ++ extraLabels,
    responseLatency := ["host", "family", "proto", "status"] ++ extraLabels }

/-- The prometheus call `vec.WithLabelValues(lvs...)` on a vector with label names
`names`: it panics unless it is given exactly one value per name. -/
def WithLabelValues (names : List String) (lvs : List String) : Except Fault Unit :=
  if lvs.length = names.length then .ok () else .error .inconsistentLabelCardinality

/-- The two rule forms `parseConfig` builds (`HeaderCacheRule`, `PathCacheRule`). -/
inductive CacheRule where
  | HeaderCacheRule (Header : String) (Value : List String)
  | PathCacheRule (Path : String)
  deriving DecidableEq, Repr

/-- Go `type Config struct`; durations are in nanoseconds; `metrics` is a pointer and may be nil. -/
structure Config where
  StatusHeader : String
  DefaultMaxAge : Int
  LockTimeout : Int
  CacheRules : List CacheRule
  Path : String
  CacheKeyTemplate : String
  Buckets : List Bucket
  uiPath : String
  host : String
  metrics : Option Metrics
  deriving DecidableEq, Repr

/-! ## Requests, responses, cache entries -/

/-- The fields of `*http.Request` that handler.go reads. -/
structure Request where
  Method : String
  Header : Header
  Path : String
  Host : String
  RemoteAddr : String
  ProtoMajor : Int
  ProtoMinor : Int
  deriving DecidableEq, Repr

/-- The `http.ResponseWriter` handed to the handler: whether its dynamic type is
`*httpserver.ResponseRecorder`, the `cache_status` value set on the recorder's replacer,
the header map, and the status code of the first `WriteHeader`. -/
structure ResponseWriter where
  isRecorder : Bool
  cacheStatus : Option String
  header : Header
  status : Option Int
  deriving DecidableEq, Repr

/-- Go `http.ResponseWriter.WriteHeader`: the first call fixes the status code. -/
def ResponseWriter.WriteHeader (w : ResponseWriter) (code : Int) : ResponseWriter :=
  match w.status with
  | none => { w with status := some code }
  | some _ => w

/-- Modelled from the spec: the type `Response` (the streaming response channel of section
4.4) is not among the sources, only its uses in `fetchUpstream` are.  Status and header
snapshot are fixed by the first `WriteHeader`, after which `WaitHeaders` returns in the
consumer; `WaitBody` holds the producer until a body sink is attached (the spec has the
body streamed live to its consumers, not buffered); `Write` appends to the body; `Close`
ends it. -/
structure Response where
  Code : Int
  HeaderMap : Header
  snapHeader : Header
  wroteHeader : Bool
  bodySet : Bool
  body : Bytes
  closed : Bool
  deriving DecidableEq, Repr

/-- Modelled from the spec: `NewResponse()`, an empty response with no header written,
no body sink, and nothing in flight. -/
def NewResponse : Response :=
  { Code := 200, HeaderMap := [], snapHeader := [], wroteHeader := false,
    bodySet := false, body := [], closed := false }

/-- Modelled from the spec: `Response.WriteHeader` (the channel's `SetStatus` + `BeginBody`):
records the code, snapshots the headers set so far, and marks headers final. -/
def Response.WriteHeader (rw : Response) (code : Int) : Response :=
  if rw.wroteHeader then rw
  else { rw with Code := code, snapHeader := rw.HeaderMap, wroteHeader := true }

/-- Modelled from the spec: `Response.Write` appends to the live body stream. -/
def Response.Write (rw : Response) (buf : Bytes) : Response :=
  { rw with body := rw.body ++ buf }

/-- Modelled from the spec: `Response.Close` marks the end of the body. -/
def Response.Close (rw : Response) : Response :=
  { rw with closed := true }

/-- Modelled from the spec: attaching a body sink to the response (what `setStorage` or
`WriteBodyTo` do for the producer blocked in `WaitBody`). -/
def Response.SetBody (rw : Response) : Response :=
  { rw with bodySet := true }

/-- Modelled from the spec: `HTTPCacheEntry` (the CacheEntry of section 3) is not among
the sources; these are the fields that handler.go reads or passes on. -/
structure HTTPCacheEntry where
  key : String
  Request : Request
  Response : Response
  isPublic : Bool
  deriving DecidableEq, Repr

/-- What one pass of the bucket loop meets: `storage.SignedURL` fails, `http.Get` fails,
or `http.Get` returns a response. -/
inductive Attempt where
  | signError (err : Error)
  | getError (err : Error)
  | response (StatusCode : Int) (Header : Header) (Body : Bytes)
  deriving DecidableEq, Repr

/-- Calls the handler makes into its collaborators, in program order. -/
inductive Event where
  | requestCountInc (labels : List String)
  | responseStatusInc (labels : List String)
  | gcsRequestDurationObserve (labels : List String)
  | statsInc (status : String)
  | adquire (key : String)
  | unlock (key : String)
  | cacheGet
  | cachePut (entry : HTTPCacheEntry)
  | fetchUpstream
  | signedURL (bucket : String) (object : String)
  | httpGet (bucket : String) (object : String)
  | println (err : Error)
  | setStorage (entry : HTTPCacheEntry)
  | writeHeader (code : Int)
  | writeBodyTo (entry : HTTPCacheEntry)
  | nextServeHTTP
  deriving DecidableEq, Repr

/-- Everything handler.go obtains from outside its own source: library calls, the next
handler, the cache store (over an abstract store state `κ`), the backends, and the
scheduler.  `upstream i b object` is what the `i`-th pass of the bucket loop meets for
bucket `b`.  `schedule` is the number of steps the fetch goroutine is given between the
moment `WaitHeaders` returns in the caller and the caller's `popOrNil`. -/
structure Env (κ : Type) where
  splitHostPort : String → Option (String × String)
  parseIP : String → Option Bool
  replace : Request → String → String
  next : ResponseWriter → Request → ResponseWriter × Int × Option Error
  cacheGet : κ → Request → Option HTTPCacheEntry
  cachePut : κ → Request → HTTPCacheEntry → κ
  isPublic : Request → Response → Config → Bool
  upstream : Nat → Bucket → String → Attempt
  schedule : Nat
  setStorage : HTTPCacheEntry → Config → Option Error
  writeBodyTo : HTTPCacheEntry → ResponseWriter → Option Error

/-! ## handler.go -/

/-- The handler: its configuration, the cache store state and the statistics.  The
next handler and the lock table are reached through `Env` and `Event`. -/
structure Handler (κ : Type) where
  Config : Config
  Cache : κ
  Stats : Stats

/-- What one call of `ServeHTTP` leaves behind: the calls it made, the statistics, the
cache store, the response writer, and either its `(int, error)` return value or the
fault that ended it. -/
structure Outcome (κ : Type) where
  trace : List Event
  Stats : Stats
  Cache : κ
  w : ResponseWriter
  result : Except Fault (Int × Option Error)

/-- Go `getKey`: the replacer applied to the cache-key template. -/
def getKey {κ : Type} (env : Env κ) (cacheKeyTemplate : String) (r : Request) : String :=
  env.replace r cacheKeyTemplate

/-- Go `copyHeaders(from, to)`: `to.Add(k, v)` for every value of every key. -/
def copyHeaders (src : Header) (dst : Header) : Header :=
  src.foldl (fun acc kv => kv.2.foldl (fun acc2 v => Header.Add acc2 kv.1 v) acc) dst

/-- The writer part of `addStatusHeaderIfConfigured`: set `cache_status` on the replacer
when the writer is a `ResponseRecorder`, then add the status header when one is configured. -/
def markStatus (StatusHeader : String) (w : ResponseWriter) (status : String) :
    ResponseWriter :=
  let w1 := if w.isRecorder then { w with cacheStatus := some status } else w
  if StatusHeader ≠ "" then { w1 with header := Header.Add w1.header StatusHeader status }
  else w1

/-- Go `addStatusHeaderIfConfigured`: `Stats.Inc`, then the recorder's replacer, then
the status header. -/
def Handler.addStatusHeaderIfConfigured {κ : Type} (handler : Handler κ)
    (w : ResponseWriter) (status : String) :
    Except Fault (GcsProxy.Stats × ResponseWriter) :=
  match handler.Stats.Inc status with
  | .error f => .error f
  | .ok st => .ok (st, markStatus handler.Config.StatusHeader w status)

/-- The two statements of `respond` that write the head of the response:
`copyHeaders(entry.Response.snapHeader, w.Header())` and `w.WriteHeader(entry.Response.Code)`. -/
def writeHead (w : ResponseWriter) (entry : HTTPCacheEntry) : ResponseWriter :=
  ({ w with header := copyHeaders entry.Response.snapHeader w.header }).WriteHeader
    entry.Response.Code

/-- Go `respond`, entered after the calls in `t`, with cache store state `cache`. -/
def Handler.respond {κ : Type} (handler : Handler κ) (env : Env κ) (t : List Event)
    (cache : κ) (w : ResponseWriter) (entry : HTTPCacheEntry) (cacheStatus : String) :
    Outcome κ :=
  match handler.addStatusHeaderIfConfigured w cacheStatus with
  | .error f =>
    { trace := t ++ [.statsInc cacheStatus], Stats := handler.Stats, Cache := cache,
      w := w, result := .error f }
  | .ok (st, w1) =>
    let w3 := writeHead w1 entry
    let err := env.writeBodyTo entry w3
    { trace := t ++ [.statsInc cacheStatus, .writeHeader entry.Response.Code,
                     .writeBodyTo entry],
      Stats := st, Cache := cache, w := w3, result := .ok (entry.Response.Code, err) }

/-- Go `shouldUseCache`. -/
def shouldUseCache (req : Request) : Bool :=
  if req.Method ≠ "GET" ∧ req.Method ≠ "HEAD" then false
  else if req.Header.Get "range" ≠ "" then false
  else if strings.ToLower (req.Header.Get "Connection") = "upgrade" ∧
      strings.ToLower (req.Header.Get "Upgrade") = "websocket" then false
  else true

/-- Go `popOrNil`: a receive that does not wait, on a channel of capacity one. -/
def popOrNil (errChan : Option Error) : Option Error := errChan

/-- The bucket loop of `fetchUpstream`, from pass number `i` on: the calls made, and
`res` when `found` is set. -/
def fetchLoop (upstream : Nat → Bucket → String → Attempt) (object : String) :
    Nat → List Bucket → List Event × Option (Int × Header × Bytes)
  | _, [] => ([], none)
  | i, bucket :: rest =>
    match upstream i bucket object with
    | .signError err =>
      let r := fetchLoop upstream object (i + 1) rest
      (.signedURL bucket.Name object :: .println err :: r.1, r.2)
    | .getError _ =>
      let r := fetchLoop upstream object (i + 1) rest
      (.signedURL bucket.Name object :: .httpGet bucket.Name object :: r.1, r.2)
    | .response StatusCode hdr body =>
      if StatusCode ≠ 200 then
        let r := fetchLoop upstream object (i + 1) rest
        (.signedURL bucket.Name object :: .httpGet bucket.Name object :: r.1, r.2)
      else
        ([.signedURL bucket.Name object, .httpGet bucket.Name object],
          some (StatusCode, hdr, body))

/-- One statement of the fetch goroutine after its first `WriteHeader`. -/
inductive Step where
  | WaitBody
  | Write (body : Bytes)
  | Close
  | send (err : Error)
  deriving DecidableEq, Repr

/-- What the fetch goroutine and its caller share: the response and `errChan`
(capacity one; `none` = empty). -/
structure Shared where
  response : Response
  errChan : Option Error
  deriving DecidableEq, Repr

/-- One statement's effect, or `none` when it cannot proceed yet. -/
def Step.run : Step → Shared → Option Shared
  | .WaitBody, s => if s.response.bodySet then some s else none
  | .Write body, s => some { s with response := s.response.Write body }
  | .Close, s => some { s with response := s.response.Close }
  | .send err, s =>
    match s.errChan with
    | none => some { s with errChan := some err }
    | some _ => none

/-- Let the goroutine take up to `n` statements, stopping where it cannot proceed. -/
def runSteps : Nat → List Step → Shared → List Step × Shared
  | 0, prog, s => (prog, s)
  | _, [], s => ([], s)
  | n + 1, st :: prog, s =>
    match st.run s with
    | none => (st :: prog, s)
    | some s1 => runSteps n prog s1

/-- The statements of the goroutine that follow its first `WriteHeader`. -/
def afterWriteHeader : Option (Int × Header × Bytes) → List Step
  | some (_, _, body) => [.WaitBody, .Write body, .Close, .send "not found"]
  | none => [.send "not found"]

/-- What `fetchUpstream` hands back, together with the calls it made and what is left of
its goroutine. -/
structure Fetched where
  entry : HTTPCacheEntry
  err : Option Error
  trace : List Event
  pending : List Step
  shared : Shared
  deriving DecidableEq, Repr

/-- Modelled from the spec: `NewHTTPCacheEntry` is not among the sources.  The entry
for `response` under `key`; its `isPublic` flag is computed once, here, by the
cacheability predicate (a parameter, `Env.isPublic`). -/
def NewHTTPCacheEntry {κ : Type} (env : Env κ) (key : String) (req : Request)
    (response : Response) (config : Config) : HTTPCacheEntry :=
  { key := key, Request := req, Response := response,
    isPublic := env.isPublic req response config }

/-- Go `fetchUpstream`.  The goroutine runs the bucket loop and its first `WriteHeader`
(with `res.StatusCode` when `found`, with 404 otherwise); only then does `WaitHeaders`
return in the caller.  The goroutine is given `env.schedule` further statements before
the caller builds the entry and polls `errChan`. -/
def Handler.fetchUpstream {κ : Type} (handler : Handler κ) (env : Env κ) (req : Request) :
    Fetched :=
  let object := strings.TrimLeft req.Path "/"
  let loop := fetchLoop env.upstream object 0 handler.Config.Buckets
  let code : Int := match loop.2 with
    | some (StatusCode, _, _) => StatusCode
    | none => 404
  let response := NewResponse.WriteHeader code
  let run := runSteps env.schedule (afterWriteHeader loop.2)
    { response := response, errChan := none }
  { entry := NewHTTPCacheEntry env (getKey env handler.Config.CacheKeyTemplate req) req
      run.2.response handler.Config,
    err := popOrNil run.2.errChan,
    trace := .fetchUpstream :: loop.1,
    pending := run.1,
    shared := { run.2 with errChan := none } }

/-- The rest of the fetch goroutine once a body sink is attached to the response. -/
def Fetched.drain (f : Fetched) : List Step × Shared :=
  runSteps f.pending.length f.pending { f.shared with response := f.shared.response.SetBody }

/-- Go `host`. -/
def host {κ : Type} (env : Env κ) (r : Request) : Option String :=
  match env.splitHostPort r.Host with
  | none => if !strings.Contains r.Host ':' then some (strings.ToLower r.Host) else none
  | some (h, _) => some (strings.ToLower h)

/-- Go `isIPv6`; `parseIP` answers `some true` for an address with a 4-byte form. -/
def isIPv6 {κ : Type} (env : Env κ) (addr : String) : Bool :=
  let addr1 := match env.splitHostPort addr with
    | some (h, _) => h
    | none => addr
  match env.parseIP addr1 with
  | some is4 => !is4
  | none => false

/-- The label values `hostname, fam, proto` computed at the top of `ServeHTTP`. -/
def requestLabels {κ : Type} (env : Env κ) (metrics : Metrics) (r : Request) : List String :=
  let hostname := if metrics.hostname = "" then
      (match host env r with
       | none => "-"
       | some originalHostname => originalHostname)
    else metrics.hostname
  let fam := if isIPv6 env r.RemoteAddr then "2" else "1"
  let proto := strconv.Itoa r.ProtoMajor ++ "." ++ strconv.Itoa r.ProtoMinor
  [hostname, fam, proto]

/-- Go `ServeHTTP`, second case: the entry exists and is not public.  Entered after the
calls in `t` (which end with `lock.Unlock()`). -/
def Handler.serveRefetch {κ : Type} (handler : Handler κ) (env : Env κ) (labels : List String)
    (t : List Event) (w : ResponseWriter) (r : Request) : Outcome κ :=
  let f := handler.fetchUpstream env r
  let t1 := t ++ f.trace ++ [.gcsRequestDurationObserve labels]
  match f.err with
  | some err =>
    { trace := t1 ++ [.responseStatusInc (labels ++ ["error"])],
      Stats := handler.Stats, Cache := handler.Cache, w := w,
      result := .ok (f.entry.Response.Code, some err) }
  | none =>
    if f.entry.isPublic then
      match env.setStorage f.entry handler.Config with
      | some err =>
        { trace := t1 ++ [.setStorage f.entry, .responseStatusInc (labels ++ ["error"]),
                          .println err],
          Stats := handler.Stats, Cache := handler.Cache, w := w,
          result := .ok (500, some err) }
      | none =>
        handler.respond env
          (t1 ++ [.setStorage f.entry, .responseStatusInc (labels ++ ["miss"]),
                  .cachePut f.entry])
          (env.cachePut handler.Cache r f.entry) w f.entry "miss"
    else
      handler.respond env t1 handler.Cache w f.entry "skip"

/-- Go `ServeHTTP`, third case: no entry in the cache.  Entered after the calls in `t`,
with the lock of `key` held. -/
def Handler.serveMiss {κ : Type} (handler : Handler κ) (env : Env κ) (labels : List String)
    (key : String) (t : List Event) (w : ResponseWriter) (r : Request) : Outcome κ :=
  let f := handler.fetchUpstream env r
  let t1 := t ++ f.trace ++ [.gcsRequestDurationObserve labels]
  match f.err with
  | some err =>
    { trace := t1 ++ [.unlock key, .responseStatusInc (labels ++ ["error"])],
      Stats := handler.Stats, Cache := handler.Cache, w := w,
      result := .ok (f.entry.Response.Code, some err) }
  | none =>
    let stored : List Event × Option Error :=
      if f.entry.isPublic then ([.setStorage f.entry], env.setStorage f.entry handler.Config)
      else ([], none)
    match stored.2 with
    | some err =>
      { trace := t1 ++ stored.1 ++ [.unlock key, .responseStatusInc (labels ++ ["error"]),
                                    .println err],
        Stats := handler.Stats, Cache := handler.Cache, w := w,
        result := .ok (500, some err) }
    | none =>
      handler.respond env
        (t1 ++ stored.1 ++ [.cachePut f.entry, .unlock key,
                            .responseStatusInc (labels ++ ["miss"])])
        (env.cachePut handler.Cache r f.entry) w f.entry "miss"

/-- Go `ServeHTTP`.  The metric vectors are the ones that `Metrics.start` defined from
the metrics section of this configuration.  The extra label values are never filled in
(the loop that would do so is commented out), so the first `WithLabelValues` call panics
when extra labels are configured.  The later calls on `responseStatus` and
`gcsRequestDuration` pass the same extra values to vectors with the same extra names, and
so cannot panic once the first call has passed. -/
def Handler.ServeHTTP {κ : Type} (handler : Handler κ) (env : Env κ) (w : ResponseWriter)
    (r : Request) : Outcome κ :=
  match handler.Config.metrics with
  | none =>
    -- handler.Config.metrics.hostname on a nil *Metrics
    { trace := [], Stats := handler.Stats, Cache := handler.Cache, w := w,
      result := .error .nilPointerDereference }
  | some metrics =>
    let labels := requestLabels env metrics r
    let extraLabelValues : List String := []
    -- requestCount.WithLabelValues(append([]string{hostname, fam, proto}, extraLabelValues...)...)
    match WithLabelValues metrics.define.requestCount (labels ++ extraLabelValues) with
    | .error f =>
      { trace := [], Stats := handler.Stats, Cache := handler.Cache, w := w,
        result := .error f }
    | .ok _ =>
      let t0 : List Event := [.requestCountInc labels]
      if !shouldUseCache r then
        match handler.addStatusHeaderIfConfigured w "bypass" with
        | .error f =>
          { trace := t0 ++ [.statsInc "bypass"], Stats := handler.Stats,
            Cache := handler.Cache, w := w, result := .error f }
        | .ok (st, w1) =>
          let n := env.next w1 r
          { trace := t0 ++ [.statsInc "bypass", .responseStatusInc (labels ++ ["bypass"]),
                            .nextServeHTTP],
            Stats := st, Cache := handler.Cache, w := n.1, result := .ok n.2 }
      else
        let key := getKey env handler.Config.CacheKeyTemplate r
        let t1 := t0 ++ [.adquire key, .cacheGet]
        match env.cacheGet handler.Cache r with
        | some previousEntry =>
          if previousEntry.isPublic then
            handler.respond env
              (t1 ++ [.unlock key, .responseStatusInc (labels ++ ["hit"])])
              handler.Cache w previousEntry "hit"
          else
            handler.serveRefetch env labels (t1 ++ [.unlock key]) w r
        | none =>
          handler.serveMiss env labels key t1 w r

/-! ## Observations on a trace -/

/-- The calls to the lock table (`Adquire`, `Unlock`) in a trace, in order. -/
def lockEvents (t : List Event) : List Event :=
  t.filter (fun e => match e with
    | .adquire _ => true
    | .unlock _ => true
    | _ => false)

/-- The number of `lock.Unlock()` calls in a trace. -/
def unlockCount (t : List Event) : Nat :=
  (t.filter (fun e => match e with
    | .unlock _ => true
    | _ => false)).length

/-- The classification strings passed to `Stats.Inc`, in order. -/
def statsCalls (t : List Event) : List String :=
  t.filterMap (fun e => match e with
    | .statsInc status => some status
    | _ => none)

/-- The entries passed to `Cache.Put`, in order. -/
def putCalls (t : List Event) : List HTTPCacheEntry :=
  t.filterMap (fun e => match e with
    | .cachePut entry => some entry
    | _ => none)

/-- The bucket names passed to `storage.SignedURL`, in order. -/
def signedBuckets (t : List Event) : List String :=
  t.filterMap (fun e => match e with
    | .signedURL bucket _ => some bucket
    | _ => none)

/-- The classification labels passed to the `responseStatus` metric, in order. -/
def statusLabels (t : List Event) : List (Option String) :=
  t.filterMap (fun e => match e with
    | .responseStatusInc labels => some labels.getLast?
    | _ => none)

/-- Whether a trace contains a call into the upstream fetcher or the cache lookup. -/
def consultsCacheOrUpstream (t : List Event) : Bool :=
  t.any (fun e => match e with
    | .cacheGet => true
    | .cachePut _ => true
    | .fetchUpstream => true
    | .signedURL _ _ => true
    | .httpGet _ _ => true
    | .setStorage _ => true
    | _ => false)

/-- An attempt of the bucket loop that does not end the loop: a signing error, a
network error, or a status other than 200. -/
def Attempt.fails : Attempt → Prop
  | .signError _ => True
  | .getError _ => True
  | .response StatusCode _ _ => StatusCode ≠ 200

/-! ## A concrete deployment, used to evaluate the handler -/

/-- A cache store keyed by the derived cache key. -/
abbrev KeyedStore := List (String × HTTPCacheEntry)

/-- A sample metrics section. -/
def sampleMetrics : Metrics :=
  { addr := "localhost:9180", useCaddyAddr := false, hostname := "", path := "/metrics",
    extraLabels := [] }

/-- Two sample buckets. -/
def bucketA : Bucket :=
  { Name := "a", Credentials := { GoogleAccessID := "id-a", PrivateKey := "key-a" } }

/-- The second sample bucket. -/
def bucketB : Bucket :=
  { Name := "b", Credentials := { GoogleAccessID := "id-b", PrivateKey := "key-b" } }

/-- A sample configuration with the buckets given. -/
def sampleConfig (buckets : List Bucket) : Config :=
  { StatusHeader := "X-Cache-Status", DefaultMaxAge := 300000000000,
    LockTimeout := 300000000000, CacheRules := [], Path := "",
    CacheKeyTemplate := "{method} {host}{path}?{query}", Buckets := buckets,
    uiPath := "", host := "", metrics := some sampleMetrics }

/-- A sample handler over the keyed store. -/
def sampleHandler (buckets : List Bucket) (cache : KeyedStore) (stats : Stats) :
    Handler KeyedStore :=
  { Config := sampleConfig buckets, Cache := cache, Stats := stats }

/-- A sample request with the method and headers given. -/
def sampleRequest (method : String) (hdr : Header) : Request :=
  { Method := method, Header := hdr, Path := "/o.txt", Host := "example.org",
    RemoteAddr := "10.0.0.1:4000", ProtoMajor := 1, ProtoMinor := 1 }

/-- A sample response writer. -/
def sampleWriter : ResponseWriter :=
  { isRecorder := false, cacheStatus := none, header := [], status := none }

/-- The cache key of the sample deployment. -/
def sampleKey (r : Request) : String := r.Method ++ " " ++ r.Host ++ r.Path ++ "?"

/-- A sample environment: bucket `a` answers 503, bucket `b` answers 200 with a
`Content-Type` header and a two-byte body; responses are cacheable when `public` is
set; `setStorage` fails when `storageErr` is set; the goroutine is given `schedule`
statements before the caller polls. -/
def sampleEnv (isPublic : Bool) (storageErr : Option Error) (schedule : Nat) :
    Env KeyedStore :=
  { splitHostPort := fun _ => none,
    parseIP := fun _ => some true,
    replace := fun r _ => sampleKey r,
    next := fun w _ => (w, 405, none),
    cacheGet := fun c r => c.lookup (sampleKey r),
    cachePut := fun c r e => (sampleKey r, e) :: c,
    isPublic := fun _ _ _ => isPublic,
    upstream := fun _ b _ =>
      if b.Name = "b" then .response 200 [("Content-Type", ["text/plain"])] [104, 105]
      else .response 503 [] [],
    schedule := schedule,
    setStorage := fun _ _ => storageErr,
    writeBodyTo := fun _ _ => none }

/-- A private entry stored earlier under the sample key. -/
def stalePrivateEntry : HTTPCacheEntry :=
  { key := "GET example.org/o.txt?", Request := sampleRequest "GET" [],
    Response := NewResponse.WriteHeader 200, isPublic := false }

/-- A statistics object whose hit counter is at its maximum, all mutexes unlocked. -/
def saturatedHit : Stats := { NewStats with Hit := MaxUint64 }

/-- A statistics object whose hit counter is at its maximum while another caller holds
the error mutex. -/
def saturatedHitErrorHeld : Stats := { NewStats with Hit := MaxUint64, errorMutex := true }

/-- The classification that one call of `ServeHTTP` hands to `Stats.Inc`, read off the
branch taken: `none` on the returns that follow a failed fetch or a failed storage write. -/
def statsClassification {κ : Type} (handler : Handler κ) (env : Env κ) (r : Request) :
    Option String :=
  if shouldUseCache r = false then some "bypass"
  else
    let f := handler.fetchUpstream env r
    match env.cacheGet handler.Cache r with
    | some previousEntry =>
      if previousEntry.isPublic then some "hit"
      else if f.err.isSome then none
      else if f.entry.isPublic then
        (if (env.setStorage f.entry handler.Config).isSome then none else some "miss")
      else some "skip"
    | none =>
      if f.err.isSome then none
      else if f.entry.isPublic ∧ (env.setStorage f.entry handler.Config).isSome then none
      else some "miss"

/-- A statistics object at zero while another caller holds the error mutex. -/
def errorHeld : Stats := { NewStats with errorMutex := true }

/-- The sample store holding one entry under the sample key. -/
def sampleStore (entry : HTTPCacheEntry) : KeyedStore :=
  [("GET example.org/o.txt?", entry)]

/-- The first value stored in a header map under the name `name`, or the empty string:
the value of that header in the words of the specification. -/
def headerValue (h : Header) (name : String) : String :=
  match h.lookup name with
  | some (v :: _) => v
  | _ => ""

/-- Whether the rune `c` is the lower-case ASCII letter `p` when case is ignored: `c` is
`p` itself, or the capital of `p`, or the one other rune whose lower case is `p` (the
Kelvin sign for `k`, the dotted capital I for `i`). -/
def sameLetter (c p : Char) : Bool :=
  c = p ||
  (97 ≤ p.toNat && p.toNat ≤ 122 && c.toNat + 32 = p.toNat) ||
  (p = 'k' && c = Char.ofNat 0x212A) ||
  (p = 'i' && c = Char.ofNat 0x130)

/-- Whether the runes `cs` spell the lower-case word `ps` when case is ignored. -/
def sameLetters : List Char → List Char → Bool
  | [], [] => true
  | c :: cs, p :: ps => sameLetter c p && sameLetters cs ps
  | _, _ => false

/-- Whether `s` equals the lower-case ASCII word `word`, compared case-insensitively. -/
def equalsIgnoringCase (s word : String) : Bool := sameLetters s.data word.data

/-- The eligibility predicate in the words of the specification, as a function of the
only four values it reads: the method, and the values of the Range, Connection and
Upgrade headers.  The method must be exactly `GET` or `HEAD`, the Range value empty, and
the request not an upgrade to websocket: not both the Connection value equal to `upgrade`
and the Upgrade value equal to `websocket`, compared case-insensitively. -/
def eligible (method range connection upgrade : String) : Bool :=
  (method = "GET" || method = "HEAD") && range = "" &&
    !(equalsIgnoringCase connection "upgrade" && equalsIgnoringCase upgrade "websocket")

/-! ## config.go: `parseConfig` -/

/-- The methods of `*caddy.Controller` that `parseConfig` calls, over the state `σ` of
the controller (its position in the tokens of the directive), and its field `Key`. -/
structure Controller (σ : Type) where
  Key : String
  Next : σ → Bool × σ
  NextBlock : σ → Bool × σ
  RemainingArgs : σ → List String × σ
  Val : σ → String
  Err : σ → String → Error
  ArgErr : σ → Error

/-- What config.go and setup.go obtain from the operating system and from libraries:
`net.SplitHostPort`, `time.ParseDuration` (nanoseconds), whether `os.Stat` of a name
fails with an error for which `os.IsNotExist` holds, `ioutil.ReadFile`, `json.Unmarshal`
into a `googleCloudCredential`, and `os.Mkdir`. -/
structure System where
  SplitHostPort : String → Option (String × String)
  ParseDuration : String → Except Error Int
  statNotExist : String → Bool
  ReadFile : String → Except Error String
  Unmarshal : String → Except Error googleCloudCredential
  Mkdir : String → Option Error

/-- Go `unicode.IsSpace`. -/
def unicode.IsSpace (c : Char) : Bool :=
  [0x09, 0x0A, 0x0B, 0x0C, 0x0D, 0x20, 0x85, 0xA0, 0x1680, 0x2028, 0x2029, 0x202F, 0x205F,
    0x3000].contains c.toNat || (0x2000 ≤ c.toNat && c.toNat ≤ 0x200A)

/-- Go `strings.TrimSpace`. -/
def strings.TrimSpace (s : String) : String :=
  String.mk ((s.data.dropWhile unicode.IsSpace).reverse.dropWhile unicode.IsSpace).reverse

/-- Go `emptyConfig`: the defaults (five minutes, in nanoseconds), no rules, no buckets,
and a nil `metrics` pointer. -/
def emptyConfig : Config :=
  { StatusHeader := "X-Cache-Status", DefaultMaxAge := 300000000000,
    LockTimeout := 300000000000, CacheRules := [], Path := "",
    CacheKeyTemplate := "{method} {host}{path}?{query}", Buckets := [],
    uiPath := "", host := "", metrics := none }

/-- Go `NewMetrics`. -/
def NewMetrics : Metrics :=
  { addr := "localhost:9180", useCaddyAddr := false, hostname := "", path := "/metrics",
    extraLabels := [] }

/-- The innermost loop of `parseConfig`: `for c.NextBlock()` over the items of a
`prometheus` block, with the local variables `metrics` and `addrSet`.  `none` when the
loop has not ended within the fuel. -/
def prometheusBlock {σ : Type} (c : Controller σ) :
    Nat → σ → Metrics → Bool → Option (Except Error (σ × Metrics))
  | 0, _, _, _ => none
  | fuel + 1, d, metrics, addrSet =>
    let nb := c.NextBlock d
    if !nb.1 then some (.ok (nb.2, metrics))
    else
      let item := c.Val nb.2
      if item = "path" then
        let ra := c.RemainingArgs nb.2
        match ra.1 with
        | [a] => prometheusBlock c fuel ra.2 { metrics with path := a } addrSet
        | _ => some (.error (c.ArgErr ra.2))
      else if item = "address" then
        if metrics.useCaddyAddr then
          some (.error (c.Err nb.2
            "prometheus: address and use_caddy_addr options may not be used together"))
        else
          let ra := c.RemainingArgs nb.2
          match ra.1 with
          | [a] => prometheusBlock c fuel ra.2 { metrics with addr := a } true
          | _ => some (.error (c.ArgErr ra.2))
      else if item = "hostname" then
        let ra := c.RemainingArgs nb.2
        match ra.1 with
        | [a] => prometheusBlock c fuel ra.2 { metrics with hostname := a } addrSet
        | _ => some (.error (c.ArgErr ra.2))
      else if item = "use_caddy_addr" then
        if addrSet then
          some (.error (c.Err nb.2
            "prometheus: address and use_caddy_addr options may not be used together"))
        else prometheusBlock c fuel nb.2 { metrics with useCaddyAddr := true } addrSet
      else if item = "label" then
        let ra := c.RemainingArgs nb.2
        match ra.1 with
        | [labelName, labelValuePlaceholder] =>
          prometheusBlock c fuel ra.2
            { metrics with extraLabels := metrics.extraLabels ++
                [{ name := strings.TrimSpace labelName, value := labelValuePlaceholder }] }
            addrSet
        | _ => some (.error (c.ArgErr ra.2))
      else some (.error (c.Err nb.2 ("prometheus: unknown item: " ++ item)))

/-- The loop of the `stats` case of `parseConfig`: `for c.NextBlock()` over the items of
a `stats` block.  Only here is `config.metrics` assigned, after a `prometheus` item. -/
def statsBlock {σ : Type} (c : Controller σ) :
    Nat → σ → Config → Option (Except Error (σ × Config))
  | 0, _, _ => none
  | fuel + 1, d, config =>
    let nb := c.NextBlock d
    if !nb.1 then some (.ok (nb.2, config))
    else
      let parameter := c.Val nb.2
      if parameter = "prometheus" then
        let d1 := (c.Next nb.2).2
        let ra := c.RemainingArgs d1
        let start : Except Error Metrics :=
          match ra.1 with
          | [] => .ok NewMetrics
          | [a] => .ok { NewMetrics with addr := a }
          | _ => .error (c.ArgErr ra.2)
        match start with
        | .error e => some (.error e)
        | .ok metrics =>
          match prometheusBlock c fuel ra.2 metrics false with
          | none => none
          | some (.error e) => some (.error e)
          | some (.ok (d2, m)) => statsBlock c fuel d2 { config with metrics := some m }
      else some (.error (c.Err nb.2 ("Unknown cache parameter: " ++ parameter)))

/-- The outer loop of `parseConfig`: `for c.NextBlock()` over the directives of the
block, with the local variables `config` and `buckets`. -/
def configBlock {σ : Type} (c : Controller σ) (sys : System) :
    Nat → σ → Config → List Bucket → Option (Except Error (σ × Config × List Bucket))
  | 0, _, _, _ => none
  | fuel + 1, d, config, buckets =>
    let nb := c.NextBlock d
    if !nb.1 then some (.ok (nb.2, config, buckets))
    else
      let parameter := c.Val nb.2
      let ra := c.RemainingArgs nb.2
      if parameter = "status_header" then
        match ra.1 with
        | [a] => configBlock c sys fuel ra.2 { config with StatusHeader := a } buckets
        | _ => some (.error (c.Err ra.2 "Invalid usage of status_header in cache config."))
      else if parameter = "lock_timeout" then
        match ra.1 with
        | [_] =>
          match sys.ParseDuration (c.Val ra.2) with
          | .error _ =>
            some (.error (c.Err ra.2 ("lock_timeout: Invalid duration " ++ c.Val ra.2)))
          | .ok duration =>
            configBlock c sys fuel ra.2 { config with LockTimeout := duration } buckets
        | _ => some (.error (c.Err ra.2 "Invalid usage of lock_timeout in cache config."))
      else if parameter = "default_max_age" then
        match ra.1 with
        | [_] =>
          match sys.ParseDuration (c.Val ra.2) with
          | .error _ =>
            some (.error (c.Err ra.2 ("default_max_age: Invalid duration " ++ c.Val ra.2)))
          | .ok duration =>
            configBlock c sys fuel ra.2 { config with DefaultMaxAge := duration } buckets
        | _ => some (.error (c.Err ra.2 "Invalid usage of default_max_age in cache config."))
      else if parameter = "path" then
        match ra.1 with
        | [a] => configBlock c sys fuel ra.2 { config with Path := a } buckets
        | _ => some (.error (c.Err ra.2 "Invalid usage of path in cache config."))
      else if parameter = "match_header" then
        match ra.1 with
        | a :: b :: rest =>
          configBlock c sys fuel ra.2
            { config with CacheRules := config.CacheRules ++
                [CacheRule.HeaderCacheRule a (b :: rest)] } buckets
        | _ => some (.error (c.Err ra.2 "Invalid usage of match_header in cache config."))
      else if parameter = "match_path" then
        match ra.1 with
        | [a] =>
          configBlock c sys fuel ra.2
            { config with CacheRules := config.CacheRules ++ [CacheRule.PathCacheRule a] }
            buckets
        | _ => some (.error (c.Err ra.2 "Invalid usage of match_path in cache config."))
      else if parameter = "cache_key" then
        match ra.1 with
        | [a] => configBlock c sys fuel ra.2 { config with CacheKeyTemplate := a } buckets
        | _ => some (.error (c.Err ra.2 "Invalid usage of cache_key in cache config."))
      else if parameter = "bucket" then
        match ra.1 with
        | [name, file] =>
          if sys.statNotExist file then
            some (.error ("credential file for '" ++ name ++ "' " ++ file ++ " not exist"))
          else
            match sys.ReadFile file with
            | .error e =>
              some (.error ("error reading service account key file: " ++ e))
            | .ok data =>
              match sys.Unmarshal data with
              | .error e =>
                some (.error ("error parsing service account credentials: " ++ e))
              | .ok gcloudCredential =>
                configBlock c sys fuel ra.2 config
                  (buckets ++ [{ Name := name, Credentials := gcloudCredential }])
        | _ => some (.error (c.Err ra.2 "Invalid usage of cache_key in cache config."))
      else if parameter = "stats" then
        let d1 := (c.Next ra.2).2
        match statsBlock c fuel d1 config with
        | none => none
        | some (.error e) => some (.error e)
        | some (.ok (d2, config1)) => configBlock c sys fuel d2 config1 buckets
      else some (.error (c.Err ra.2 ("Unknown cache parameter: " ++ parameter)))

/-- Go `parseConfig`: the returned pair `(*Config, error)`, or `none` when its loops have
not ended within the fuel. -/
def parseConfig {σ : Type} (c : Controller σ) (sys : System) (fuel : Nat) (d : σ) :
    Option (Option Config × Option Error) :=
  let config := emptyConfig
  let d1 := (c.Next d).2
  let ra := c.RemainingArgs d1
  if ra.1.length > 1 then
    some (some config, some (c.Err ra.2 ("Unexpected value " ++ c.Val ra.2)))
  else
    let host := match sys.SplitHostPort c.Key with
      | some (h, _) => h
      | none => ""
    match configBlock c sys fuel ra.2 { config with host := host } [] with
    | none => none
    | some (.error e) => some (none, some e)
    | some (.ok (_, config1, buckets)) => some (some { config1 with Buckets := buckets }, none)

/-! ## setup.go -/

/-- Go `NewHandler`; `newCache` stands for `NewHTTPCache`. -/
def NewHandler {κ : Type} (newCache : String → κ) (config : Config) : Handler κ :=
  { Config := config, Cache := newCache config.CacheKeyTemplate, Stats := NewStats }

/-- What a completed `setup` has registered: whether this call registered the metrics
start-up hook (`once.Do`), the path of the metrics endpoint middleware when
`use_caddy_addr` is set, and the cache handler middleware. -/
structure Installed (κ : Type) where
  OnStartup : Bool
  metricsPath : Option String
  handler : Handler κ

/-- Go `setup`.  The result is `none` when `parseConfig` has not ended within the fuel,
a fault when `setup` panics, and otherwise the error it returns or, for a nil error, what
it has registered.  `first` says whether `once.Do` runs its function on this call. -/
def setup {σ κ : Type} (c : Controller σ) (sys : System) (newCache : String → κ)
    (first : Bool) (fuel : Nat) (d : σ) : Option (Except Fault (Except Error (Installed κ))) :=
  match parseConfig c sys fuel d with
  | none => none
  | some (_, some err) => some (.ok (.error err))
  | some (none, none) => some (.error .nilPointerDereference)
  | some (some config, none) =>
    let mk := if sys.statNotExist config.Path then sys.Mkdir config.Path else none
    match mk with
    | some err => some (.ok (.error err))
    | none =>
      match config.metrics with
      | none => some (.error .nilPointerDereference)
      | some metrics =>
        some (.ok (.ok
          { OnStartup := first,
            metricsPath := if metrics.useCaddyAddr then some metrics.path else none,
            handler := NewHandler newCache config }))

/-! ## The caddyfile dispenser behind `caddy.Controller` -/

/-- Go `caddyfile.Token`. -/
structure Token where
  File : String
  Line : Int
  Text : String
  deriving DecidableEq, Repr

/-- The mutable part of `caddyfile.Dispenser`: `cursor` and `nesting`. -/
structure Dispenser where
  cursor : Int
  nesting : Int
  deriving DecidableEq, Repr

/-- The token at index `i`, when `0 <= i < len(tokens)`. -/
def tokenAt (tokens : List Token) (i : Int) : Option Token :=
  if 0 ≤ i then tokens.get? i.toNat else none

/-- Go `Dispenser.Val`. -/
def Dispenser.Val (tokens : List Token) (d : Dispenser) : String :=
  match tokenAt tokens d.cursor with
  | some t => t.Text
  | none => ""

/-- Go `Dispenser.Next`. -/
def Dispenser.Next (tokens : List Token) (d : Dispenser) : Bool × Dispenser :=
  if d.cursor < (tokens.length : Int) - 1 then (true, { d with cursor := d.cursor + 1 })
  else (false, d)

/-- Go `Dispenser.numLineBreaks`: the line breaks inside the text of the token at `i`. -/
def numLineBreaks (tokens : List Token) (i : Int) : Int :=
  match tokenAt tokens i with
  | some t => ((t.Text.data.filter (fun ch => ch = Char.ofNat 10)).length : Int)
  | none => 0

/-- Go `Dispenser.NextArg`: load the next token if it is on the same line. -/
def Dispenser.NextArg (tokens : List Token) (d : Dispenser) : Bool × Dispenser :=
  if d.cursor < 0 then (true, { d with cursor := d.cursor + 1 })
  else if d.cursor ≥ (tokens.length : Int) then (false, d)
  else
    match tokenAt tokens d.cursor, tokenAt tokens (d.cursor + 1) with
    | some a, some b =>
      if a.File = b.File ∧ a.Line + numLineBreaks tokens d.cursor = b.Line then
        (true, { d with cursor := d.cursor + 1 })
      else (false, d)
    | _, _ => (false, d)

/-- Go `Dispenser.NextBlock`. -/
def Dispenser.NextBlock (tokens : List Token) (d : Dispenser) : Bool × Dispenser :=
  if d.nesting > 0 then
    let d1 := (Dispenser.Next tokens d).2
    if Dispenser.Val tokens d1 = "\x7d" then (false, { d1 with nesting := d1.nesting - 1 })
    else (true, d1)
  else
    let na := Dispenser.NextArg tokens d
    if !na.1 then (false, na.2)
    else if Dispenser.Val tokens na.2 ≠ "\x7b" then
      (false, { na.2 with cursor := na.2.cursor - 1 })
    else
      let d1 := (Dispenser.Next tokens na.2).2
      if Dispenser.Val tokens d1 = "\x7d" then (false, d1)
      else (true, { d1 with nesting := d1.nesting + 1 })

/-- The loop of `Dispenser.RemainingArgs`, for at most `n` passes. -/
def remainingArgsLoop (tokens : List Token) : Nat → Dispenser → List String →
    List String × Dispenser
  | 0, d, args => (args, d)
  | n + 1, d, args =>
    let na := Dispenser.NextArg tokens d
    if !na.1 then (args, na.2)
    else if Dispenser.Val tokens na.2 = "\x7b" then
      (args, { na.2 with cursor := na.2.cursor - 1 })
    else remainingArgsLoop tokens n na.2 (args ++ [Dispenser.Val tokens na.2])

/-- Go `Dispenser.RemainingArgs`: the tokens left on the line, up to an opening brace.
`NextArg` moves the cursor forward each time it returns true, which it does at most
`len(tokens) + 1` times from a cursor at `-1` or beyond. -/
def Dispenser.RemainingArgs (tokens : List Token) (d : Dispenser) :
    List String × Dispenser :=
  remainingArgsLoop tokens (tokens.length + 1 + (-d.cursor).toNat) d []

/-- Go `Dispenser.Err`: the message with the file and line of the current token. -/
def Dispenser.Err (filename : String) (tokens : List Token) (d : Dispenser)
    (msg : String) : Error :=
  let file := match tokenAt tokens d.cursor with
    | some t => if t.File ≠ "" then t.File else filename
    | none => filename
  let line : Int := match tokenAt tokens d.cursor with
    | some t => t.Line
    | none => 0
  file ++ ":" ++ toString line ++ " - Error during parsing: " ++ msg

/-- Go `Dispenser.ArgErr`. -/
def Dispenser.ArgErr (filename : String) (tokens : List Token) (d : Dispenser) : Error :=
  if Dispenser.Val tokens d = "\x7b" then
    Dispenser.Err filename tokens d "Unexpected token '\x7b', expecting argument"
  else
    Dispenser.Err filename tokens d
      ("Wrong argument count or unexpected line ending after '" ++
        Dispenser.Val tokens d ++ "'")

/-- The controller that caddy hands to `setup` for one directive: a dispenser over the
tokens of the directive (the directive name first), and the key of the server block. -/
def caddyController (filename key : String) (tokens : List Token) : Controller Dispenser :=
  { Key := key,
    Next := Dispenser.Next tokens,
    NextBlock := Dispenser.NextBlock tokens,
    RemainingArgs := Dispenser.RemainingArgs tokens,
    Val := Dispenser.Val tokens,
    Err := Dispenser.Err filename tokens,
    ArgErr := Dispenser.ArgErr filename tokens }

/-- Go `caddyfile.NewDispenserTokens`: the cursor starts before the first token. -/
def NewDispenserTokens : Dispenser := { cursor := -1, nesting := 0 }

/-- The lines of a Caddyfile as tokens: line `i` (from 1) holds the words of the `i`-th
list. -/
def tokensOfLines (file : String) (lines : List (List String)) : List Token :=
  (lines.enum.map (fun p => p.2.map (fun w =>
    ({ File := file, Line := (p.1 : Int) + 1, Text := w } : Token)))).flatten

/-- A sample system: every duration parses to one second, every file exists and holds a
credential, every directory exists. -/
def sampleSystem : System :=
  { SplitHostPort := fun _ => none,
    ParseDuration := fun _ => .ok 1000000000,
    statNotExist := fun _ => false,
    ReadFile := fun _ => .ok "{}",
    Unmarshal := fun _ => .ok { GoogleAccessID := "id", PrivateKey := "key" },
    Mkdir := fun _ => none }

/-- A `gcs` block with a cache directory and a bucket, and no `stats` section. -/
def blockWithoutStats : List Token :=
  tokensOfLines "Caddyfile"
    [["gcs", "\x7b"], ["path", "/var/cache/gcs"], ["bucket", "a", "/etc/a.json"], ["\x7d"]]

/-- The same block with a `stats` section holding a `prometheus` block. -/
def blockWithStats : List Token :=
  tokensOfLines "Caddyfile"
    [["gcs", "\x7b"], ["path", "/var/cache/gcs"], ["bucket", "a", "/etc/a.json"],
     ["stats", "\x7b"], ["prometheus", "\x7b"], ["hostname", "proxy"], ["\x7d"], ["\x7d"], ["\x7d"]]

/-- A `gcs` block whose prometheus section configures one extra label. -/
def blockWithLabel : List Token :=
  tokensOfLines "Caddyfile"
    [["gcs", "\x7b"], ["path", "/var/cache/gcs"], ["stats", "\x7b"],
     ["prometheus", "\x7b"], ["label", "region", "eu"], ["\x7d"], ["\x7d"], ["\x7d"]]

/-- The metrics configuration that `parseConfig` builds from `blockWithLabel`. -/
def labelledMetrics : Metrics :=
  { NewMetrics with extraLabels := [{ name := "region", value := "eu" }] }

/-- The handler that `setup` registers for `blockWithLabel`. -/
def labelledHandler : Handler KeyedStore :=
  NewHandler (fun _ => ([] : KeyedStore))
    { emptyConfig with Path := "/var/cache/gcs", metrics := some labelledMetrics }


/-- With the hit mutex free and the hit counter below its maximum, `Inc("hit")` returns
and adds one to `Hit` only. -/
theorem Stats.Inc_hit_of_free (s : Stats) (hf : s.hitMutex = false)
    (hlt : s.Hit < MaxUint64) : s.Inc "hit" = .ok { s with Hit := s.Hit + 1 } := by
  have h1 : s.Hit ≠ MaxUint64 := Nat.ne_of_lt hlt
  obtain ⟨sz, hit, hm, mi, mm, er, em, sk, sm, by_, bm⟩ := s
  simp only at hf h1
  subst hf
  simp [Stats.Inc, mutexLock, mutexUnlock, h1, bind, Except.bind, pure, Except.pure]
  simp only [MaxUint64] at hlt
  omega

/-- With the miss mutex free and the miss counter below its maximum, `Inc("miss")`
returns and adds one to `Miss` only. -/
theorem Stats.Inc_miss_of_free (s : Stats) (hf : s.missMutex = false)
    (hlt : s.Miss < MaxUint64) : s.Inc "miss" = .ok { s with Miss := s.Miss + 1 } := by
  have h1 : s.Miss ≠ MaxUint64 := Nat.ne_of_lt hlt
  obtain ⟨sz, hit, hm, mi, mm, er, em, sk, sm, by_, bm⟩ := s
  simp only at hf h1
  subst hf
  simp [Stats.Inc, mutexLock, mutexUnlock, h1, bind, Except.bind, pure, Except.pure]
  simp only [MaxUint64] at hlt
  omega

/-- With the bypass mutex free and the bypass counter below its maximum, `Inc("bypass")`
returns and adds one to `Bypass` only. -/
theorem Stats.Inc_bypass_of_free (s : Stats) (hf : s.bypassMutex = false)
    (hlt : s.Bypass < MaxUint64) : s.Inc "bypass" = .ok { s with Bypass := s.Bypass + 1 } := by
  have h1 : s.Bypass ≠ MaxUint64 := Nat.ne_of_lt hlt
  obtain ⟨sz, hit, hm, mi, mm, er, em, sk, sm, by_, bm⟩ := s
  simp only at hf h1
  subst hf
  simp [Stats.Inc, mutexLock, mutexUnlock, h1, bind, Except.bind, pure, Except.pure]
  simp only [MaxUint64] at hlt
  omega

/-- With the error mutex free and the error counter below its maximum, `Inc("error")`
returns and adds one to `Error` only. -/
theorem Stats.Inc_error_of_free (s : Stats) (hf : s.errorMutex = false)
    (hlt : s.Error < MaxUint64) : s.Inc "error" = .ok { s with Error := s.Error + 1 } := by
  have h1 : s.Error ≠ MaxUint64 := Nat.ne_of_lt hlt
  obtain ⟨sz, hit, hm, mi, mm, er, em, sk, sm, by_, bm⟩ := s
  simp only at hf h1
  subst hf
  simp [Stats.Inc, mutexLock, mutexUnlock, h1, bind, Except.bind, pure, Except.pure]
  simp only [MaxUint64] at hlt
  omega

/-- C8 fails on the code.  For each classification `c` and every state whose counter of
`c` equals `MaxUint64`: with all five mutexes unlocked, `Inc(c)` does not complete,
because `reset` locks `skipMutex` and then calls `errorMutex.Unlock()` on the unlocked
error mutex, which is the runtime's fatal error; and for `c = "skip"` the call does not
complete in any state of the mutexes, because `reset` never unlocks the `skipMutex` that
`Inc` goes on to lock. -/
theorem overflow_inc_does_not_complete (c : String) (hc : c ∈ classifications) (s : Stats)
    (hmax : s.counter c = MaxUint64) :
    (s.quiescent → s.Inc c = .error .unlockOfUnlockedMutex) ∧
    (c = "skip" → ∀ s1, s.Inc c ≠ .ok s1) := by
  obtain ⟨sz, hit, hm, mi, mm, er, em, sk, sm, by_, bm⟩ := s
  simp only [classifications, List.mem_cons, List.mem_singleton, List.not_mem_nil,
    or_false] at hc
  rcases hc with rfl | rfl | rfl | rfl | rfl <;>
  · simp [Stats.counter] at hmax
    subst hmax
    refine ⟨?_, ?_⟩
    · rintro ⟨h1, h2, h3, h4, h5⟩
      simp only at h1 h2 h3 h4 h5
      subst h1 h2 h3 h4 h5
      simp [Stats.Inc, Stats.reset, mutexLock, mutexUnlock, bind, Except.bind, pure,
        Except.pure, MaxUint64]
    · intro hskip s1
      cases hm <;> cases mm <;> cases em <;> cases sm <;> cases bm <;>
        simp [Stats.Inc, Stats.reset, mutexLock, mutexUnlock, bind, Except.bind, pure,
          Except.pure, MaxUint64] at hskip ⊢

/-- The failing input of C8: the hit counter at `MaxUint64`, all mutexes unlocked, and
the call `Inc("hit")`. -/
theorem overflow_inc_does_not_complete_witness :
    "hit" ∈ classifications ∧ saturatedHit.counter "hit" = MaxUint64 ∧
    saturatedHit.quiescent ∧ saturatedHit.Inc "hit" = .error .unlockOfUnlockedMutex :=
  ⟨by decide, rfl, by decide,
    (overflow_inc_does_not_complete "hit" (by decide) saturatedHit rfl).1 (by decide)⟩

/-- Where `Inc(c)` does return from a state whose counter of `c` equals `MaxUint64` (the
error mutex was held when `reset` unlocked it), the call is counted after the reset: the
counter of `c` is left at one, the other four at zero. -/
theorem overflow_reset_then_count (c : String) (hc : c ∈ classifications) (s s1 : Stats)
    (hmax : s.counter c = MaxUint64) (hret : s.Inc c = .ok s1) :
    s1.counter c = 1 ∧ (∀ d ∈ classifications, d ≠ c → s1.counter d = 0) ∧
    s1.Size = s.Size := by
  obtain ⟨sz, hit, hm, mi, mm, er, em, sk, sm, by_, bm⟩ := s
  simp only [classifications, List.mem_cons, List.mem_singleton, List.not_mem_nil,
    or_false] at hc
  rcases hc with rfl | rfl | rfl | rfl | rfl <;>
  · simp [Stats.counter] at hmax
    subst hmax
    cases hm <;> cases mm <;> cases em <;> cases sm <;> cases bm <;>
      simp [Stats.Inc, Stats.reset, mutexLock, mutexUnlock, bind, Except.bind, pure,
        Except.pure, MaxUint64] at hret <;>
      (subst hret; simp [Stats.counter, classifications])

/-- The hit counter at `MaxUint64` with the error mutex held: `Inc("hit")` returns with
`Hit = 1` and leaves `skipMutex` locked. -/
theorem overflow_reset_then_count_sample :
    saturatedHitErrorHeld.Inc "hit" = .ok { NewStats with Hit := 1, skipMutex := true } :=
  rfl

/-- C9 fails for `c = "skip"`.  In every state with all five mutexes unlocked, `Inc("skip")`
locks `skipMutex`, and then calls `errorMutex.Unlock()` on the unlocked error mutex: the
call ends in the runtime's fatal error instead of returning. -/
theorem skip_inc_unlocks_error_mutex (s : Stats) (hq : s.quiescent) :
    s.Inc "skip" = .error .unlockOfUnlockedMutex := by
  obtain ⟨sz, hit, hm, mi, mm, er, em, sk, sm, by_, bm⟩ := s
  obtain ⟨h1, h2, h3, h4, h5⟩ := hq
  simp only at h1 h2 h3 h4 h5
  subst h1 h2 h3 h4 h5
  by_cases hs : sk = MaxUint64 <;>
    simp [Stats.Inc, Stats.reset, mutexLock, mutexUnlock, bind, Except.bind, pure,
      Except.pure, hs]

/-- The failing input of C9: the zero-valued `Stats`. -/
theorem skip_inc_unlocks_error_mutex_witness :
    NewStats.quiescent ∧ NewStats.Skip < MaxUint64 ∧
    NewStats.Inc "skip" = .error .unlockOfUnlockedMutex :=
  ⟨by decide, by decide, skip_inc_unlocks_error_mutex NewStats (by decide)⟩

/-! ## handler.go: the bucket loop and `fetchUpstream` -/

/-- The bucket loop calls nothing but `storage.SignedURL`, `http.Get` and `fmt.Println`. -/
theorem fetchLoop_filter (p : Event → Bool)
    (h1 : ∀ b o, p (.signedURL b o) = false) (h2 : ∀ b o, p (.httpGet b o) = false)
    (h3 : ∀ e, p (.println e) = false)
    (up : Nat → Bucket → String → Attempt) (object : String) (bs : List Bucket) :
    ∀ i, (fetchLoop up object i bs).1.filter p = [] := by
  induction bs with
  | nil => intro i; rfl
  | cons b rest ih =>
    intro i
    unfold fetchLoop
    split
    · simpa [List.filter_cons, h1, h3] using ih (i + 1)
    · simpa [List.filter_cons, h1, h2] using ih (i + 1)
    · split
      · simpa [List.filter_cons, h1, h2] using ih (i + 1)
      · simp [List.filter_cons, h1, h2]

/-- The same for a partial projection of the trace. -/
theorem fetchLoop_filterMap {α : Type} (g : Event → Option α)
    (h1 : ∀ b o, g (.signedURL b o) = none) (h2 : ∀ b o, g (.httpGet b o) = none)
    (h3 : ∀ e, g (.println e) = none)
    (up : Nat → Bucket → String → Attempt) (object : String) (bs : List Bucket) :
    ∀ i, (fetchLoop up object i bs).1.filterMap g = [] := by
  induction bs with
  | nil => intro i; rfl
  | cons b rest ih =>
    intro i
    unfold fetchLoop
    split
    · simpa [List.filterMap_cons, h1, h3] using ih (i + 1)
    · simpa [List.filterMap_cons, h1, h2] using ih (i + 1)
    · split
      · simpa [List.filterMap_cons, h1, h2] using ih (i + 1)
      · simp [List.filterMap_cons, h1, h2]

theorem lockEvents_append (a b : List Event) :
    lockEvents (a ++ b) = lockEvents a ++ lockEvents b := by
  simp [lockEvents]

theorem unlockCount_append (a b : List Event) :
    unlockCount (a ++ b) = unlockCount a + unlockCount b := by
  simp [unlockCount]

theorem statsCalls_append (a b : List Event) :
    statsCalls (a ++ b) = statsCalls a ++ statsCalls b := by
  simp [statsCalls]

theorem putCalls_append (a b : List Event) :
    putCalls (a ++ b) = putCalls a ++ putCalls b := by
  simp [putCalls]

theorem statusLabels_append (a b : List Event) :
    statusLabels (a ++ b) = statusLabels a ++ statusLabels b := by
  simp [statusLabels]

theorem fetchUpstream_lockEvents {κ : Type} (handler : Handler κ) (env : Env κ)
    (r : Request) : lockEvents (handler.fetchUpstream env r).trace = [] := by
  have := fetchLoop_filter (fun e => match e with
    | .adquire _ => true
    | .unlock _ => true
    | _ => false) (by simp) (by simp) (by simp) env.upstream
    (strings.TrimLeft r.Path "/") handler.Config.Buckets 0
  simpa [Handler.fetchUpstream, lockEvents, List.filter_cons] using this

theorem fetchUpstream_unlockCount {κ : Type} (handler : Handler κ) (env : Env κ)
    (r : Request) : unlockCount (handler.fetchUpstream env r).trace = 0 := by
  have := fetchLoop_filter (fun e => match e with
    | .unlock _ => true
    | _ => false) (by simp) (by simp) (by simp) env.upstream
    (strings.TrimLeft r.Path "/") handler.Config.Buckets 0
  simpa [Handler.fetchUpstream, unlockCount, List.filter_cons] using this

theorem fetchUpstream_statsCalls {κ : Type} (handler : Handler κ) (env : Env κ)
    (r : Request) : statsCalls (handler.fetchUpstream env r).trace = [] := by
  have := fetchLoop_filterMap (fun e => match e with
    | .statsInc status => some status
    | _ => none) (by simp) (by simp) (by simp) env.upstream
    (strings.TrimLeft r.Path "/") handler.Config.Buckets 0
  simpa [Handler.fetchUpstream, statsCalls, List.filterMap_cons] using this

theorem fetchUpstream_putCalls {κ : Type} (handler : Handler κ) (env : Env κ)
    (r : Request) : putCalls (handler.fetchUpstream env r).trace = [] := by
  have := fetchLoop_filterMap (fun e => match e with
    | .cachePut entry => some entry
    | _ => none) (by simp) (by simp) (by simp) env.upstream
    (strings.TrimLeft r.Path "/") handler.Config.Buckets 0
  simpa [Handler.fetchUpstream, putCalls, List.filterMap_cons] using this

theorem fetchUpstream_statusLabels {κ : Type} (handler : Handler κ) (env : Env κ)
    (r : Request) : statusLabels (handler.fetchUpstream env r).trace = [] := by
  have := fetchLoop_filterMap (fun e => match e with
    | .responseStatusInc labels => some labels.getLast?
    | _ => none) (by simp) (by simp) (by simp) env.upstream
    (strings.TrimLeft r.Path "/") handler.Config.Buckets 0
  simpa [Handler.fetchUpstream, statusLabels, List.filterMap_cons] using this

/-- The goroutine cannot get past `WaitBody` while no body sink is attached. -/
theorem runSteps_blocked (n : Nat) (prog : List Step) (s : Shared)
    (h : s.response.bodySet = false) :
    runSteps n (.WaitBody :: prog) s = (.WaitBody :: prog, s) := by
  cases n with
  | zero => rfl
  | succ n => simp [runSteps, Step.run, h]

/-- Failover in the bucket loop: when the passes over `pre` all fail and the pass over
`last` returns 200, the loop signs one URL per bucket of `pre ++ [last]`, in order, and
stops with that response. -/
theorem fetchLoop_failover (up : Nat → Bucket → String → Attempt) (object : String)
    (last : Bucket) (hdr : Header) (body : Bytes) (post : List Bucket) :
    ∀ (pre : List Bucket) (k : Nat),
      (∀ (i : Nat) (h : i < pre.length), (up (k + i) (pre.get ⟨i, h⟩) object).fails) →
      up (k + pre.length) last object = .response 200 hdr body →
      (fetchLoop up object k (pre ++ last :: post)).2 = some (200, hdr, body) ∧
      signedBuckets (fetchLoop up object k (pre ++ last :: post)).1 =
        (pre ++ [last]).map Bucket.Name := by
  intro pre
  induction pre with
  | nil =>
    intro k _ hlast
    simp at hlast
    simp [fetchLoop, hlast, signedBuckets]
  | cons b pre ih =>
    intro k hfail hlast
    have h0 := hfail 0 (by simp)
    simp only [Nat.add_zero, List.get_eq_getElem, List.getElem_cons_zero] at h0
    have hrec := ih (k + 1)
      (by
        intro i h
        have := hfail (i + 1) (by simp; omega)
        simpa [Nat.add_assoc, Nat.add_comm 1 i] using this)
      (by simpa [Nat.add_assoc, Nat.add_comm 1] using hlast)
    simp only [List.cons_append]
    unfold fetchLoop
    cases hu : up k b object with
    | signError e => simpa [signedBuckets] using hrec
    | getError e => simpa [signedBuckets] using hrec
    | response c hd bd =>
      rw [hu] at h0
      have hc : c ≠ 200 := h0
      simpa [signedBuckets, hc] using hrec

/-- C2, as stated, fails: the entry does not carry the backend's response headers.  The
only bucket answers 200 with a `Content-Type` header; the entry built by `fetchUpstream`
has status 200 and an empty header snapshot. -/
theorem failover_headers_counterexample :
    (sampleEnv true none 0).upstream 0 bucketB
      (strings.TrimLeft (sampleRequest "GET" []).Path "/") =
      .response 200 [("Content-Type", ["text/plain"])] [104, 105] ∧
    ((sampleHandler [bucketB] [] NewStats).fetchUpstream (sampleEnv true none 0)
      (sampleRequest "GET" [])).entry.Response.Code = 200 ∧
    ((sampleHandler [bucketB] [] NewStats).fetchUpstream (sampleEnv true none 0)
      (sampleRequest "GET" [])).entry.Response.snapHeader = [] ∧
    ((sampleHandler [bucketB] [] NewStats).fetchUpstream (sampleEnv true none 0)
      (sampleRequest "GET" [])).entry.Response.snapHeader ≠
        [("Content-Type", ["text/plain"])] := by
  refine ⟨rfl, rfl, rfl, ?_⟩
  decide

/-- A goroutine with no statement left stays where it is. -/
theorem runSteps_nil (n : Nat) (s : Shared) : runSteps n [] s = ([], s) := by
  cases n <;> rfl

/-- When the bucket loop ends with `found` set, `fetchUpstream` returns, for every
schedule, the entry of the response whose header was written with `res.StatusCode`, and no
error: its goroutine is still waiting in `WaitBody`, ahead of its send on `errChan`. -/
theorem fetchUpstream_found {κ : Type} (handler : Handler κ) (env : Env κ) (req : Request)
    (c : Int) (hdr : Header) (body : Bytes)
    (h : (fetchLoop env.upstream (strings.TrimLeft req.Path "/") 0
      handler.Config.Buckets).2 = some (c, hdr, body)) :
    handler.fetchUpstream env req =
      { entry := NewHTTPCacheEntry env (getKey env handler.Config.CacheKeyTemplate req) req
          (NewResponse.WriteHeader c) handler.Config,
        err := none,
        trace := .fetchUpstream ::
          (fetchLoop env.upstream (strings.TrimLeft req.Path "/") 0 handler.Config.Buckets).1,
        pending := [.WaitBody, .Write body, .Close, .send "not found"],
        shared := { response := NewResponse.WriteHeader c, errChan := none } } := by
  unfold Handler.fetchUpstream
  simp only [h, afterWriteHeader]
  rw [runSteps_blocked _ _ _ rfl]
  rfl

/-- When the bucket loop ends without `found`, `fetchUpstream` returns the entry of the
synthesized 404 response; the error it returns is the goroutine's `not found` if the
goroutine was given a statement before the caller polled `errChan`, and nil otherwise. -/
theorem fetchUpstream_not_found {κ : Type} (handler : Handler κ) (env : Env κ)
    (req : Request)
    (h : (fetchLoop env.upstream (strings.TrimLeft req.Path "/") 0
      handler.Config.Buckets).2 = none) :
    (handler.fetchUpstream env req).entry.Response.Code = 404 ∧
    (handler.fetchUpstream env req).err =
      (if env.schedule = 0 then none else some "not found") := by
  unfold Handler.fetchUpstream
  simp only [h, afterWriteHeader]
  cases hs : env.schedule with
  | zero => simp [runSteps, NewHTTPCacheEntry, popOrNil, Response.WriteHeader, NewResponse]
  | succ n =>
    simp [runSteps, runSteps_nil, Step.run, NewHTTPCacheEntry, popOrNil,
      Response.WriteHeader, NewResponse]

/-- When no pass of the bucket loop returns 200, the loop ends without `found`. -/
theorem fetchLoop_all_fail (up : Nat → Bucket → String → Attempt) (object : String) :
    ∀ (bs : List Bucket) (k : Nat),
      (∀ (i : Nat) (h : i < bs.length), (up (k + i) (bs.get ⟨i, h⟩) object).fails) →
      (fetchLoop up object k bs).2 = none := by
  intro bs
  induction bs with
  | nil => intro k _; rfl
  | cons b rest ih =>
    intro k hfail
    have h0 := hfail 0 (by simp)
    simp only [Nat.add_zero, List.get_eq_getElem, List.getElem_cons_zero] at h0
    have hrec := ih (k + 1)
      (by
        intro i h
        have := hfail (i + 1) (by simp; omega)
        simpa [Nat.add_assoc, Nat.add_comm 1 i] using this)
    unfold fetchLoop
    cases hu : up k b object with
    | signError e => simpa using hrec
    | getError e => simpa using hrec
    | response c hd bd =>
      rw [hu] at h0
      have hc : c ≠ 200 := h0
      simpa [hc] using hrec

/-- C2, amended.  When the buckets are `pre ++ [last]`, every pass over `pre` fails and
the pass over `last` returns 200 with headers `hdr` and body `body`: one URL is signed per
configured bucket, in configured order; the entry has status 200; its header snapshot is
empty (the backend's headers are not copied); `fetchUpstream` returns no error; and once a
body sink is attached the goroutine writes exactly `body` and closes the response. -/
theorem failover_serves_first_success {κ : Type} (handler : Handler κ) (env : Env κ)
    (req : Request) (pre : List Bucket) (last : Bucket) (hdr : Header) (body : Bytes)
    (hb : handler.Config.Buckets = pre ++ [last])
    (hfail : ∀ (i : Nat) (h : i < pre.length),
      (env.upstream i (pre.get ⟨i, h⟩) (strings.TrimLeft req.Path "/")).fails)
    (hlast : env.upstream pre.length last (strings.TrimLeft req.Path "/") =
      .response 200 hdr body) :
    signedBuckets (handler.fetchUpstream env req).trace =
      handler.Config.Buckets.map Bucket.Name ∧
    (signedBuckets (handler.fetchUpstream env req).trace).length =
      handler.Config.Buckets.length ∧
    (handler.fetchUpstream env req).entry.Response.Code = 200 ∧
    (handler.fetchUpstream env req).entry.Response.snapHeader = [] ∧
    (handler.fetchUpstream env req).err = none ∧
    (handler.fetchUpstream env req).drain.2.response.Code = 200 ∧
    (handler.fetchUpstream env req).drain.2.response.body = body ∧
    (handler.fetchUpstream env req).drain.2.response.closed = true := by
  have hl := fetchLoop_failover env.upstream (strings.TrimLeft req.Path "/") last hdr body []
    pre 0 (by simpa using hfail) (by simpa using hlast)
  obtain ⟨h2, h1⟩ := hl
  rw [← hb] at h2 h1
  rw [fetchUpstream_found handler env req 200 hdr body h2]
  refine ⟨by simpa [signedBuckets] using h1, ?_, ?_⟩
  · have : (signedBuckets (fetchLoop env.upstream (strings.TrimLeft req.Path "/") 0
        handler.Config.Buckets).1).length = handler.Config.Buckets.length := by
      rw [h1]; simp
    simpa [signedBuckets] using this
  · simp [NewHTTPCacheEntry, Fetched.drain, runSteps, Step.run, Response.SetBody,
      Response.Write, Response.Close, Response.WriteHeader, NewResponse]

/-- The amended C2 on two buckets: `a` answers 503, `b` answers 200. -/
theorem failover_serves_first_success_witness :
    (sampleHandler [bucketA, bucketB] [] NewStats).Config.Buckets = [bucketA] ++ [bucketB] ∧
    signedBuckets ((sampleHandler [bucketA, bucketB] [] NewStats).fetchUpstream
      (sampleEnv true none 5) (sampleRequest "GET" [])).trace = ["a", "b"] ∧
    ((sampleHandler [bucketA, bucketB] [] NewStats).fetchUpstream
      (sampleEnv true none 5) (sampleRequest "GET" [])).err = none ∧
    ((sampleHandler [bucketA, bucketB] [] NewStats).fetchUpstream
      (sampleEnv true none 5) (sampleRequest "GET" [])).drain.2.response.body = [104, 105] := by
  have h := failover_serves_first_success (sampleHandler [bucketA, bucketB] [] NewStats)
    (sampleEnv true none 5) (sampleRequest "GET" []) [bucketA] bucketB
    [("Content-Type", ["text/plain"])] [104, 105] rfl
    (by
      intro i hi
      have : i = 0 := by simpa using hi
      subst this
      show (Attempt.response 503 [] []).fails
      simp [Attempt.fails])
    rfl
  exact ⟨rfl, h.1, h.2.2.2.2.1, h.2.2.2.2.2.2.1⟩

/-! ## handler.go: `ServeHTTP` -/

/-- The method test and the Range test of `shouldUseCache`. -/
theorem shouldUseCache_false (r : Request)
    (h : (r.Method ≠ "GET" ∧ r.Method ≠ "HEAD") ∨ r.Header.Get "Range" ≠ "") :
    shouldUseCache r = false := by
  unfold shouldUseCache
  rcases h with h | h
  · simp [h]
  · have hk : r.Header.Get "range" = r.Header.Get "Range" := rfl
    simp [hk, h]

/-- The label names that `Metrics.define` gives the three vectors used by `ServeHTTP`:
three (or four) fixed names and one more per configured extra label. -/
theorem define_arity (m : Metrics) :
    m.define.requestCount.length = 3 + m.extraLabels.length ∧
    m.define.gcsRequestDuration.length = 3 + m.extraLabels.length ∧
    m.define.responseStatus.length = 4 + m.extraLabels.length := by
  refine ⟨?_, ?_, ?_⟩ <;> simp [Metrics.define, Metrics.extraLabelNames] <;> omega

/-- The first metric call of `ServeHTTP` passes exactly when no extra label is
configured: it hands three values to a vector with `3 + k` label names. -/
theorem requestCount_accepts_iff {κ : Type} (env : Env κ) (metrics : Metrics) (r : Request) :
    WithLabelValues metrics.define.requestCount (requestLabels env metrics r) = .ok () ↔
      metrics.extraLabels = [] := by
  have h3 : (requestLabels env metrics r).length = 3 := by simp [requestLabels]
  have hn := (define_arity metrics).1
  unfold WithLabelValues
  rw [h3, hn]
  constructor
  · intro h
    by_cases hk : metrics.extraLabels.length = 0
    · exact List.length_eq_zero.mp hk
    · rw [if_neg (by omega)] at h
      cases h
  · intro h
    simp [h]

/-- When the first metric call does not pass, it panics. -/
theorem requestCount_rejects {κ : Type} (env : Env κ) (metrics : Metrics) (r : Request)
    (hx : metrics.extraLabels ≠ []) :
    WithLabelValues metrics.define.requestCount (requestLabels env metrics r) =
      .error .inconsistentLabelCardinality := by
  have h3 : (requestLabels env metrics r).length = 3 := by simp [requestLabels]
  have hn := (define_arity metrics).1
  have hk : metrics.extraLabels.length ≠ 0 := fun h => hx (List.length_eq_zero.mp h)
  unfold WithLabelValues
  rw [h3, hn, if_neg (by omega)]

/-- The bypass path where it is reached.  With metrics configured without extra labels
and the bypass counter free and below its maximum, a request whose method is neither GET
nor HEAD, or whose Range header is not empty, is classified bypass: `ServeHTTP` counts it
in `Stats.Bypass` only, marks the writer (the `cache_status` of a response recorder, the
configured status header), calls `Next.ServeHTTP` with that writer, makes no call to the
lock table, the cache store or the upstream fetcher, and returns what `Next` returns. -/
theorem bypass_passthrough {κ : Type} (handler : Handler κ) (env : Env κ)
    (w : ResponseWriter) (r : Request) (metrics : Metrics)
    (hm : handler.Config.metrics = some metrics) (hx : metrics.extraLabels = [])
    (hreq : (r.Method ≠ "GET" ∧ r.Method ≠ "HEAD") ∨ r.Header.Get "Range" ≠ "")
    (hfree : handler.Stats.bypassMutex = false) (hlt : handler.Stats.Bypass < MaxUint64) :
    (∃ w1 : ResponseWriter,
      w1.isRecorder = w.isRecorder ∧ w1.status = w.status ∧
      w1.cacheStatus = (if w.isRecorder then some "bypass" else w.cacheStatus) ∧
      w1.header = (if handler.Config.StatusHeader = "" then w.header
        else Header.append w.header (CanonicalMIMEHeaderKey handler.Config.StatusHeader)
          "bypass") ∧
      (handler.ServeHTTP env w r).result = .ok (env.next w1 r).2 ∧
      (handler.ServeHTTP env w r).w = (env.next w1 r).1) ∧
    (handler.ServeHTTP env w r).Stats =
      { handler.Stats with Bypass := handler.Stats.Bypass + 1 } ∧
    (handler.ServeHTTP env w r).trace =
      [.requestCountInc (requestLabels env metrics r), .statsInc "bypass",
       .responseStatusInc (requestLabels env metrics r ++ ["bypass"]), .nextServeHTTP] ∧
    statsCalls (handler.ServeHTTP env w r).trace = ["bypass"] ∧
    lockEvents (handler.ServeHTTP env w r).trace = [] ∧
    consultsCacheOrUpstream (handler.ServeHTTP env w r).trace = false ∧
    (handler.ServeHTTP env w r).Cache = handler.Cache := by
  have hs := shouldUseCache_false r hreq
  have hi := Stats.Inc_bypass_of_free handler.Stats hfree hlt
  have hl := (requestCount_accepts_iff env metrics r).mpr hx
  refine ⟨⟨markStatus handler.Config.StatusHeader w "bypass", ?_, ?_, ?_, ?_, ?_, ?_⟩, ?_⟩
  · unfold markStatus; split <;> split <;> rfl
  · unfold markStatus; split <;> split <;> rfl
  · unfold markStatus; split <;> split <;> simp_all
  · unfold markStatus Header.Add; split <;> split <;> simp_all
  · simp [Handler.ServeHTTP, hm, hs, hl, Handler.addStatusHeaderIfConfigured, hi]
  · simp [Handler.ServeHTTP, hm, hs, hl, Handler.addStatusHeaderIfConfigured, hi]
  · simp [Handler.ServeHTTP, hm, hs, hl, Handler.addStatusHeaderIfConfigured, hi, statsCalls,
      lockEvents, consultsCacheOrUpstream]

/-- The bypass path on a POST request and on a GET request with a Range header. -/
theorem bypass_passthrough_samples :
    ((sampleHandler [bucketA, bucketB] [] NewStats).ServeHTTP (sampleEnv true none 0)
      sampleWriter (sampleRequest "POST" [])).trace =
      [.requestCountInc ["example.org", "1", "1.1"], .statsInc "bypass",
       .responseStatusInc ["example.org", "1", "1.1", "bypass"], .nextServeHTTP] ∧
    ((sampleHandler [bucketA, bucketB] [] NewStats).ServeHTTP (sampleEnv true none 0)
      sampleWriter (sampleRequest "POST" [])).Stats = { NewStats with Bypass := 1 } ∧
    ((sampleHandler [bucketA, bucketB] [] NewStats).ServeHTTP (sampleEnv true none 0)
      sampleWriter (sampleRequest "POST" [])).w =
      { sampleWriter with header := [("X-Cache-Status", ["bypass"])] } ∧
    ((sampleHandler [bucketA, bucketB] [] NewStats).ServeHTTP (sampleEnv true none 0)
      sampleWriter (sampleRequest "GET" [("Range", ["bytes=0-1"])])).result =
        .ok (405, none) := by
  have h1 := bypass_passthrough (sampleHandler [bucketA, bucketB] [] NewStats)
    (sampleEnv true none 0) sampleWriter (sampleRequest "POST" []) sampleMetrics rfl rfl
    (Or.inl (by decide)) rfl (by decide)
  have h2 := bypass_passthrough (sampleHandler [bucketA, bucketB] [] NewStats)
    (sampleEnv true none 0) sampleWriter (sampleRequest "GET" [("Range", ["bytes=0-1"])])
    sampleMetrics rfl rfl (Or.inr (by decide)) rfl (by decide)
  obtain ⟨w2, -, -, -, -, hr2, -⟩ := h2.1
  exact ⟨h1.2.2.1, h1.2.1, rfl, hr2⟩

/-- C1 fails on the code.  When the metrics section configures an extra label, the
request counter vector has one label name more than the three values `ServeHTTP` passes
(the loop that fills `extraLabelValues` is commented out): for every request, and so for
every request that should be bypassed, `ServeHTTP` panics in its first metric call.  It
makes no call at all: no classification reaches `Stats`, the writer is not marked, and
`Next.ServeHTTP` is not called. -/
theorem bypass_unreached_with_extra_labels {κ : Type} (handler : Handler κ) (env : Env κ)
    (w : ResponseWriter) (r : Request) (metrics : Metrics)
    (hm : handler.Config.metrics = some metrics) (hx : metrics.extraLabels ≠ []) :
    (handler.ServeHTTP env w r).result = .error .inconsistentLabelCardinality ∧
    (handler.ServeHTTP env w r).trace = [] ∧
    (handler.ServeHTTP env w r).Stats = handler.Stats ∧
    (handler.ServeHTTP env w r).w = w := by
  have hl := requestCount_rejects env metrics r hx
  simp [Handler.ServeHTTP, hm, hl]

/-- The failing input of C1: a `gcs` block whose prometheus section has the line
`label region eu`.  `setup` completes and registers the handler, and a `POST` request,
which should be bypassed, ends in the panic of the first metric call. -/
theorem bypass_unreached_with_extra_labels_witness :
    setup (caddyController "Caddyfile" "example.org:80" blockWithLabel) sampleSystem
      (fun _ => ([] : KeyedStore)) true 20 NewDispenserTokens =
      some (.ok (.ok { OnStartup := true, metricsPath := none, handler := labelledHandler })) ∧
    labelledHandler.Config.metrics = some labelledMetrics ∧
    labelledMetrics.extraLabels ≠ [] ∧
    shouldUseCache (sampleRequest "POST" []) = false ∧
    (labelledHandler.ServeHTTP (sampleEnv true none 0) sampleWriter
      (sampleRequest "POST" [])).result = .error .inconsistentLabelCardinality ∧
    (labelledHandler.ServeHTTP (sampleEnv true none 0) sampleWriter
      (sampleRequest "POST" [])).trace = [] :=
  ⟨rfl, rfl, by decide, by decide,
    (bypass_unreached_with_extra_labels labelledHandler (sampleEnv true none 0) sampleWriter
      (sampleRequest "POST" []) labelledMetrics rfl (by decide)).1,
    (bypass_unreached_with_extra_labels labelledHandler (sampleEnv true none 0) sampleWriter
      (sampleRequest "POST" []) labelledMetrics rfl (by decide)).2.1⟩

/-- C3 fails on the code.  No bucket is configured, nothing is cached, and the caller
polls `errChan` before the goroutine has sent on it (schedule 0): `fetchUpstream` returns
the synthesized 404 entry with a nil error, and `ServeHTTP` takes the success path: it
stores the 404 entry, records `miss` and returns `(404, nil)`. -/
theorem all_fail_poll_before_send :
    ((sampleHandler [] [] NewStats).fetchUpstream (sampleEnv false none 0)
      (sampleRequest "GET" [])).entry.Response.Code = 404 ∧
    ((sampleHandler [] [] NewStats).fetchUpstream (sampleEnv false none 0)
      (sampleRequest "GET" [])).err = none ∧
    ((sampleHandler [] [] NewStats).ServeHTTP (sampleEnv false none 0) sampleWriter
      (sampleRequest "GET" [])).result = .ok (404, none) ∧
    statsCalls ((sampleHandler [] [] NewStats).ServeHTTP (sampleEnv false none 0) sampleWriter
      (sampleRequest "GET" [])).trace = ["miss"] ∧
    statusLabels ((sampleHandler [] [] NewStats).ServeHTTP (sampleEnv false none 0)
      sampleWriter (sampleRequest "GET" [])).trace = [some "miss"] ∧
    (putCalls ((sampleHandler [] [] NewStats).ServeHTTP (sampleEnv false none 0) sampleWriter
      (sampleRequest "GET" [])).trace).map (fun e => e.Response.Code) = [404] := by
  refine ⟨rfl, rfl, rfl, ?_, ?_, ?_⟩ <;> decide

/-- The branch of `ServeHTTP` taken for an eligible request, once the request counter
has accepted its label values. -/
theorem ServeHTTP_eligible {κ : Type} (handler : Handler κ) (env : Env κ)
    (w : ResponseWriter) (r : Request) (metrics : Metrics)
    (hm : handler.Config.metrics = some metrics) (hx : metrics.extraLabels = [])
    (hs : shouldUseCache r = true) :
    handler.ServeHTTP env w r =
      match env.cacheGet handler.Cache r with
      | some previousEntry =>
        if previousEntry.isPublic then
          handler.respond env
            [.requestCountInc (requestLabels env metrics r),
             .adquire (getKey env handler.Config.CacheKeyTemplate r), .cacheGet,
             .unlock (getKey env handler.Config.CacheKeyTemplate r),
             .responseStatusInc (requestLabels env metrics r ++ ["hit"])]
            handler.Cache w previousEntry "hit"
        else
          handler.serveRefetch env (requestLabels env metrics r)
            [.requestCountInc (requestLabels env metrics r),
             .adquire (getKey env handler.Config.CacheKeyTemplate r), .cacheGet,
             .unlock (getKey env handler.Config.CacheKeyTemplate r)] w r
      | none =>
        handler.serveMiss env (requestLabels env metrics r)
          (getKey env handler.Config.CacheKeyTemplate r)
          [.requestCountInc (requestLabels env metrics r),
           .adquire (getKey env handler.Config.CacheKeyTemplate r), .cacheGet] w r := by
  have hl := (requestCount_accepts_iff env metrics r).mpr hx
  simp only [Handler.ServeHTTP, hm, hs, List.append_nil, hl, Bool.not_true,
    Bool.false_eq_true, if_false]
  rfl

/-- C4.  Lock balance.  On every path of `ServeHTTP` that reaches the lock table (hit,
refetch of a private entry, miss; with or without a fetch error, a storage error, or a
fault in `Stats.Inc`) the calls to the lock table are exactly one `Adquire` of the
request's key followed by one `Unlock` of it: `Unlock` is called exactly once.  On the
bypass path, and when the handler stops before any lock (on its nil metrics pointer, or
in its first metric call when extra labels are configured), `Adquire` and `Unlock` are
called zero times. -/
theorem lock_balance {κ : Type} (handler : Handler κ) (env : Env κ) (w : ResponseWriter)
    (r : Request) :
    lockEvents (handler.ServeHTTP env w r).trace =
      (if handler.Config.metrics.map Metrics.extraLabels = some [] ∧
          shouldUseCache r = true then
        [.adquire (getKey env handler.Config.CacheKeyTemplate r),
         .unlock (getKey env handler.Config.CacheKeyTemplate r)]
       else []) ∧
    unlockCount (handler.ServeHTTP env w r).trace =
      (if handler.Config.metrics.map Metrics.extraLabels = some [] ∧
          shouldUseCache r = true then 1 else 0) := by
  have hf := fetchUpstream_lockEvents handler env r
  have hu := fetchUpstream_unlockCount handler env r
  unfold lockEvents at hf
  unfold unlockCount at hu
  cases hm : handler.Config.metrics with
  | none => simp [Handler.ServeHTTP, hm, lockEvents, unlockCount]
  | some metrics =>
    by_cases hx : metrics.extraLabels = []
    · have hl := (requestCount_accepts_iff env metrics r).mpr hx
      cases hs : shouldUseCache r with
      | false =>
        simp only [Handler.ServeHTTP, hm, hs, hl, hx, List.append_nil, Option.map_some',
          Bool.not_false, if_true, Bool.false_eq_true, and_false, if_false]
        split <;> simp [lockEvents, unlockCount]
      | true =>
        rw [ServeHTTP_eligible handler env w r metrics hm hx hs]
        simp only [Handler.serveRefetch, Handler.serveMiss, Handler.respond, hx,
          Option.map_some', and_self, if_true]
        repeat' split
        all_goals simp [lockEvents, unlockCount, hf, hu]
    · have hl := requestCount_rejects env metrics r hx
      simp [Handler.ServeHTTP, hm, hl, hx, lockEvents, unlockCount]

/-- Whatever `Stats.Inc` does, `respond` calls it once, with the status it was given, and
makes no call to the lock table or the cache store. -/
theorem respond_statsCalls {κ : Type} (handler : Handler κ) (env : Env κ) (t : List Event)
    (cache : κ) (w : ResponseWriter) (entry : HTTPCacheEntry) (cacheStatus : String) :
    statsCalls (handler.respond env t cache w entry cacheStatus).trace =
      statsCalls t ++ [cacheStatus] ∧
    putCalls (handler.respond env t cache w entry cacheStatus).trace = putCalls t ∧
    (handler.respond env t cache w entry cacheStatus).Cache = cache := by
  unfold Handler.respond
  split <;> simp [statsCalls, putCalls]

/-- C6, as stated, fails on the path with nothing cached: the fetched entry is not
public, and `ServeHTTP` still calls `Cache.Put` with it; a later `Cache.Get` finds it. -/
theorem put_gate_counterexample :
    ((sampleHandler [bucketB] [] NewStats).fetchUpstream (sampleEnv false none 0)
      (sampleRequest "GET" [])).err = none ∧
    ((sampleHandler [bucketB] [] NewStats).fetchUpstream (sampleEnv false none 0)
      (sampleRequest "GET" [])).entry.isPublic = false ∧
    putCalls ((sampleHandler [bucketB] [] NewStats).ServeHTTP (sampleEnv false none 0)
      sampleWriter (sampleRequest "GET" [])).trace =
      [((sampleHandler [bucketB] [] NewStats).fetchUpstream (sampleEnv false none 0)
        (sampleRequest "GET" [])).entry] ∧
    (sampleEnv false none 0).cacheGet
      ((sampleHandler [bucketB] [] NewStats).ServeHTTP (sampleEnv false none 0)
        sampleWriter (sampleRequest "GET" [])).Cache (sampleRequest "GET" []) =
      some ((sampleHandler [bucketB] [] NewStats).fetchUpstream (sampleEnv false none 0)
        (sampleRequest "GET" [])).entry := by
  refine ⟨rfl, rfl, ?_, ?_⟩ <;> decide

/-- C6, amended.  For an eligible request whose upstream fetch succeeds, with `f` the
result of `fetchUpstream`.  When a private entry was cached, `Cache.Put` is called (once,
with `f.entry`) if and only if `f.entry` is public and its `setStorage` succeeds.  When
nothing was cached, `Cache.Put` is called (once, with `f.entry`) whether or not the entry
is public, unless the entry is public and its `setStorage` fails.  The cache store changes
by that `Put` and in no other way. -/
theorem put_gate {κ : Type} (handler : Handler κ) (env : Env κ)
    (w : ResponseWriter) (r : Request) (metrics : Metrics)
    (hm : handler.Config.metrics = some metrics) (hx : metrics.extraLabels = [])
    (hs : shouldUseCache r = true)
    (herr : (handler.fetchUpstream env r).err = none) :
    (∀ e, env.cacheGet handler.Cache r = some e → e.isPublic = false →
      putCalls (handler.ServeHTTP env w r).trace =
        (if (handler.fetchUpstream env r).entry.isPublic = true ∧
            env.setStorage (handler.fetchUpstream env r).entry handler.Config = none
         then [(handler.fetchUpstream env r).entry] else []) ∧
      (handler.ServeHTTP env w r).Cache =
        (if (handler.fetchUpstream env r).entry.isPublic = true ∧
            env.setStorage (handler.fetchUpstream env r).entry handler.Config = none
         then env.cachePut handler.Cache r (handler.fetchUpstream env r).entry
         else handler.Cache)) ∧
    (env.cacheGet handler.Cache r = none →
      putCalls (handler.ServeHTTP env w r).trace =
        (if (handler.fetchUpstream env r).entry.isPublic = true ∧
            (env.setStorage (handler.fetchUpstream env r).entry handler.Config).isSome
         then [] else [(handler.fetchUpstream env r).entry]) ∧
      (handler.ServeHTTP env w r).Cache =
        (if (handler.fetchUpstream env r).entry.isPublic = true ∧
            (env.setStorage (handler.fetchUpstream env r).entry handler.Config).isSome
         then handler.Cache
         else env.cachePut handler.Cache r (handler.fetchUpstream env r).entry)) := by
  have hfp := fetchUpstream_putCalls handler env r
  unfold putCalls at hfp
  refine ⟨?_, ?_⟩
  · intro e hc hp
    rw [ServeHTTP_eligible handler env w r metrics hm hx hs]
    simp only [hc, hp, Bool.false_eq_true, if_false, Handler.serveRefetch, herr]
    cases hpub : (handler.fetchUpstream env r).entry.isPublic with
    | false =>
      simp only [Bool.false_eq_true, if_false, false_and]
      rw [(respond_statsCalls handler env _ _ w _ "skip").2.1,
        (respond_statsCalls handler env _ _ w _ "skip").2.2]
      simp [putCalls, hfp]
    | true =>
      simp only [if_true, true_and]
      cases hst : env.setStorage (handler.fetchUpstream env r).entry handler.Config with
      | some err => simp [putCalls, hfp]
      | none =>
        simp only [if_true]
        rw [(respond_statsCalls handler env _ _ w _ "miss").2.1,
          (respond_statsCalls handler env _ _ w _ "miss").2.2]
        simp [putCalls, hfp]
  · intro hc
    rw [ServeHTTP_eligible handler env w r metrics hm hx hs]
    simp only [hc, Handler.serveMiss, herr]
    cases hpub : (handler.fetchUpstream env r).entry.isPublic with
    | false =>
      simp only [Bool.false_eq_true, if_false, false_and]
      rw [(respond_statsCalls handler env _ _ w _ "miss").2.1,
        (respond_statsCalls handler env _ _ w _ "miss").2.2]
      simp [putCalls, hfp]
    | true =>
      simp only [if_true, true_and]
      cases hst : env.setStorage (handler.fetchUpstream env r).entry handler.Config with
      | some err => simp [putCalls, hfp]
      | none =>
        simp only [Option.isSome_none, Bool.false_eq_true, if_false]
        rw [(respond_statsCalls handler env _ _ w _ "miss").2.1,
          (respond_statsCalls handler env _ _ w _ "miss").2.2]
        simp [putCalls, hfp]

/-- The amended C6 on the sample deployment: after a private entry, a fetched private
entry is not put; with nothing cached, it is. -/
theorem put_gate_witness :
    putCalls ((sampleHandler [bucketB] (sampleStore stalePrivateEntry) NewStats).ServeHTTP
      (sampleEnv false none 0) sampleWriter (sampleRequest "GET" [])).trace = [] ∧
    (putCalls ((sampleHandler [bucketB] [] NewStats).ServeHTTP
      (sampleEnv false none 0) sampleWriter (sampleRequest "GET" [])).trace).length = 1 :=
  ⟨((put_gate (sampleHandler [bucketB] (sampleStore stalePrivateEntry) NewStats)
      (sampleEnv false none 0) sampleWriter (sampleRequest "GET" []) sampleMetrics
      rfl rfl rfl rfl).1 stalePrivateEntry rfl rfl).1,
   congrArg List.length ((put_gate (sampleHandler [bucketB] [] NewStats)
      (sampleEnv false none 0) sampleWriter (sampleRequest "GET" []) sampleMetrics
      rfl rfl rfl rfl).2 rfl).1⟩

/-- C7, as stated, fails on the error returns.  No bucket is configured and nothing is
cached; the goroutine has sent its error when the caller polls (schedule 1).  `ServeHTTP`
returns 404 with the error, records `error` on the `responseStatus` metric, and makes no
call to `Stats.Inc`: the `Error` counter of `Stats` stays at zero. -/
theorem stats_on_error_counterexample :
    ((sampleHandler [] [] NewStats).ServeHTTP (sampleEnv false none 1) sampleWriter
      (sampleRequest "GET" [])).result = .ok (404, some "not found") ∧
    statusLabels ((sampleHandler [] [] NewStats).ServeHTTP (sampleEnv false none 1)
      sampleWriter (sampleRequest "GET" [])).trace = [some "error"] ∧
    statsCalls ((sampleHandler [] [] NewStats).ServeHTTP (sampleEnv false none 1)
      sampleWriter (sampleRequest "GET" [])).trace = [] ∧
    ((sampleHandler [] [] NewStats).ServeHTTP (sampleEnv false none 1) sampleWriter
      (sampleRequest "GET" [])).Stats.Error = 0 := by
  refine ⟨rfl, ?_, ?_, rfl⟩ <;> decide

/-- C7, amended.  With metrics configured, `ServeHTTP` calls `Stats.Inc` at most once.  On
the bypass, hit, miss and skip paths it calls it exactly once, with that classification.
On every return that follows a failed fetch or a failed storage write it does not call
it: `Stats` is left as it was, `error` is recorded on the `responseStatus` metric only,
and the error is returned to the caller. -/
theorem stats_inc_once_per_served_path {κ : Type} (handler : Handler κ) (env : Env κ)
    (w : ResponseWriter) (r : Request) (metrics : Metrics)
    (hm : handler.Config.metrics = some metrics) (hx : metrics.extraLabels = []) :
    statsCalls (handler.ServeHTTP env w r).trace =
      (statsClassification handler env r).toList ∧
    (statsClassification handler env r = none →
      (handler.ServeHTTP env w r).Stats = handler.Stats ∧
      statusLabels (handler.ServeHTTP env w r).trace = [some "error"] ∧
      ∃ code err, (handler.ServeHTTP env w r).result = .ok (code, some err)) := by
  have hfs := fetchUpstream_statsCalls handler env r
  have hfl := fetchUpstream_statusLabels handler env r
  unfold statsCalls at hfs
  unfold statusLabels at hfl
  have hl := (requestCount_accepts_iff env metrics r).mpr hx
  cases hs : shouldUseCache r with
  | false =>
    simp only [Handler.ServeHTTP, hm, hs, hl, List.append_nil, statsClassification,
      Bool.not_false, if_true]
    split <;> simp [statsCalls]
  | true =>
    rw [ServeHTTP_eligible handler env w r metrics hm hx hs]
    simp only [statsClassification, hs, Bool.true_eq_false, if_false]
    cases hc : env.cacheGet handler.Cache r with
    | some e =>
      cases hp : e.isPublic with
      | true =>
        simp only [hp, if_true]
        rw [(respond_statsCalls handler env _ _ w e "hit").1]
        simp [statsCalls]
      | false =>
        simp only [hp, Bool.false_eq_true, if_false, Handler.serveRefetch]
        cases herr : (handler.fetchUpstream env r).err with
        | some err => simp [statsCalls, statusLabels, hfs, hfl]
        | none =>
          simp only [Option.isSome_none, Bool.false_eq_true, if_false]
          cases hpub : (handler.fetchUpstream env r).entry.isPublic with
          | false =>
            simp only [Bool.false_eq_true, if_false]
            rw [(respond_statsCalls handler env _ _ w _ "skip").1]
            simp [statsCalls, hfs]
          | true =>
            simp only [if_true]
            cases hst : env.setStorage (handler.fetchUpstream env r).entry handler.Config with
            | some err => simp [statsCalls, statusLabels, hfs, hfl]
            | none =>
              simp only [Option.isSome_none, Bool.false_eq_true, if_false]
              rw [(respond_statsCalls handler env _ _ w _ "miss").1]
              simp [statsCalls, hfs]
    | none =>
      simp only [Handler.serveMiss]
      cases herr : (handler.fetchUpstream env r).err with
      | some err => simp [statsCalls, statusLabels, hfs, hfl]
      | none =>
        simp only [Option.isSome_none, Bool.false_eq_true, if_false]
        cases hpub : (handler.fetchUpstream env r).entry.isPublic with
        | false =>
          simp only [Bool.false_eq_true, if_false, false_and]
          rw [(respond_statsCalls handler env _ _ w _ "miss").1]
          simp [statsCalls, hfs]
        | true =>
          simp only [if_true, true_and]
          cases hst : env.setStorage (handler.fetchUpstream env r).entry handler.Config with
          | some err => simp [statsCalls, statusLabels, hfs, hfl]
          | none =>
            simp only [Option.isSome_none, Bool.false_eq_true, if_false]
            rw [(respond_statsCalls handler env _ _ w _ "miss").1]
            simp [statsCalls, hfs]

/-- The amended C7 on the sample deployment: one `Stats.Inc("miss")` on a miss, none on
the return after a failed storage write. -/
theorem stats_inc_once_per_served_path_witness :
    statsCalls ((sampleHandler [bucketB] [] NewStats).ServeHTTP (sampleEnv true none 0)
      sampleWriter (sampleRequest "GET" [])).trace = ["miss"] ∧
    ((sampleHandler [bucketB] [] NewStats).ServeHTTP (sampleEnv true (some "disk full") 0)
      sampleWriter (sampleRequest "GET" [])).Stats = NewStats :=
  ⟨(stats_inc_once_per_served_path (sampleHandler [bucketB] [] NewStats)
      (sampleEnv true none 0) sampleWriter (sampleRequest "GET" []) sampleMetrics rfl
      rfl).1,
   ((stats_inc_once_per_served_path (sampleHandler [bucketB] [] NewStats)
      (sampleEnv true (some "disk full") 0) sampleWriter (sampleRequest "GET" [])
      sampleMetrics rfl rfl).2 rfl).1⟩

/-- C10.  Storage write failure.  For an eligible request with no public entry cached,
whose fetch succeeds with a public entry `f.entry` for which `setStorage` returns `err`:
`ServeHTTP` returns `(500, err)`; it does not call `Cache.Put`, the cache store is left as
it was, so every later `Cache.Get` answers as before; and the lock taken is released once.
When nothing was cached, the release comes after the fetch and the failed `setStorage`
and before the return. -/
theorem storage_failure {κ : Type} (handler : Handler κ) (env : Env κ)
    (w : ResponseWriter) (r : Request) (metrics : Metrics) (err : Error)
    (hm : handler.Config.metrics = some metrics) (hx : metrics.extraLabels = [])
    (hs : shouldUseCache r = true)
    (hprev : ∀ e, env.cacheGet handler.Cache r = some e → e.isPublic = false)
    (herr : (handler.fetchUpstream env r).err = none)
    (hpub : (handler.fetchUpstream env r).entry.isPublic = true)
    (hst : env.setStorage (handler.fetchUpstream env r).entry handler.Config = some err) :
    (handler.ServeHTTP env w r).result = .ok (500, some err) ∧
    putCalls (handler.ServeHTTP env w r).trace = [] ∧
    (handler.ServeHTTP env w r).Cache = handler.Cache ∧
    (∀ q, env.cacheGet (handler.ServeHTTP env w r).Cache q = env.cacheGet handler.Cache q) ∧
    lockEvents (handler.ServeHTTP env w r).trace =
      [.adquire (getKey env handler.Config.CacheKeyTemplate r),
       .unlock (getKey env handler.Config.CacheKeyTemplate r)] ∧
    unlockCount (handler.ServeHTTP env w r).trace = 1 ∧
    (env.cacheGet handler.Cache r = none →
      (handler.ServeHTTP env w r).trace =
        [.requestCountInc (requestLabels env metrics r),
         .adquire (getKey env handler.Config.CacheKeyTemplate r), .cacheGet] ++
        (handler.fetchUpstream env r).trace ++
        [.gcsRequestDurationObserve (requestLabels env metrics r),
         .setStorage (handler.fetchUpstream env r).entry,
         .unlock (getKey env handler.Config.CacheKeyTemplate r),
         .responseStatusInc (requestLabels env metrics r ++ ["error"]),
         .println err]) := by
  have hfp := fetchUpstream_putCalls handler env r
  have hfl := fetchUpstream_lockEvents handler env r
  have hfu := fetchUpstream_unlockCount handler env r
  unfold putCalls at hfp
  unfold lockEvents at hfl
  unfold unlockCount at hfu
  have key : (handler.ServeHTTP env w r).result = .ok (500, some err) ∧
      putCalls (handler.ServeHTTP env w r).trace = [] ∧
      (handler.ServeHTTP env w r).Cache = handler.Cache ∧
      lockEvents (handler.ServeHTTP env w r).trace =
        [.adquire (getKey env handler.Config.CacheKeyTemplate r),
         .unlock (getKey env handler.Config.CacheKeyTemplate r)] ∧
      unlockCount (handler.ServeHTTP env w r).trace = 1 := by
    rw [ServeHTTP_eligible handler env w r metrics hm hx hs]
    cases hc : env.cacheGet handler.Cache r with
    | some e =>
      have hp := hprev e hc
      simp [hp, Handler.serveRefetch, herr, hpub, hst, putCalls, lockEvents, unlockCount,
        hfp, hfl, hfu]
    | none =>
      simp [Handler.serveMiss, herr, hpub, hst, putCalls, lockEvents, unlockCount,
        hfp, hfl, hfu]
  obtain ⟨k1, k2, k3, k4, k5⟩ := key
  refine ⟨k1, k2, k3, ?_, k4, k5, ?_⟩
  · intro q
    rw [k3]
  · intro hc
    rw [ServeHTTP_eligible handler env w r metrics hm hx hs]
    simp [hc, Handler.serveMiss, herr, hpub, hst]

/-- C10 on the sample deployment, with nothing cached and with a private entry cached. -/
theorem storage_failure_witness :
    ((sampleHandler [bucketB] [] NewStats).ServeHTTP (sampleEnv true (some "disk full") 0)
      sampleWriter (sampleRequest "GET" [])).result = .ok (500, some "disk full") ∧
    ((sampleHandler [bucketB] (sampleStore stalePrivateEntry) NewStats).ServeHTTP
      (sampleEnv true (some "disk full") 0) sampleWriter (sampleRequest "GET" [])).result =
        .ok (500, some "disk full") :=
  ⟨(storage_failure (sampleHandler [bucketB] [] NewStats)
      (sampleEnv true (some "disk full") 0) sampleWriter (sampleRequest "GET" [])
      sampleMetrics "disk full" rfl rfl rfl (by intro e h; cases h) rfl rfl rfl).1,
   (storage_failure (sampleHandler [bucketB] (sampleStore stalePrivateEntry) NewStats)
      (sampleEnv true (some "disk full") 0) sampleWriter (sampleRequest "GET" [])
      sampleMetrics "disk full" rfl rfl rfl
      (by
        intro e h
        have h2 : some stalePrivateEntry = some e := h
        cases h2
        rfl) rfl rfl rfl).1⟩

/-- The four classifications whose case of `Inc` unlocks the mutex it locked: with the
guard of `c` free and its counter below the maximum, `Inc(c)` returns, adds one to the
counter of `c`, and leaves the other counters, `Size` and every mutex as they were. -/
theorem Stats.Inc_frame (c : String) (hc : c ∈ ["hit", "miss", "bypass", "error"])
    (s : Stats) (hg : s.guard c = false) (hlt : s.counter c < MaxUint64) :
    ∃ s1, s.Inc c = .ok s1 ∧ s1.counter c = s.counter c + 1 ∧
      (∀ d ∈ classifications, d ≠ c → s1.counter d = s.counter d) ∧
      s1.Size = s.Size ∧ (∀ d ∈ classifications, s1.guard d = s.guard d) := by
  simp only [List.mem_cons, List.mem_singleton, List.not_mem_nil, or_false] at hc
  rcases hc with rfl | rfl | rfl | rfl
  · exact ⟨_, Stats.Inc_hit_of_free s hg hlt,
      by simp [Stats.counter, Stats.guard, classifications]⟩
  · exact ⟨_, Stats.Inc_miss_of_free s hg hlt,
      by simp [Stats.counter, Stats.guard, classifications]⟩
  · exact ⟨_, Stats.Inc_bypass_of_free s hg hlt,
      by simp [Stats.counter, Stats.guard, classifications]⟩
  · exact ⟨_, Stats.Inc_error_of_free s hg hlt,
      by simp [Stats.counter, Stats.guard, classifications]⟩

/-- All backends fail, nothing is cached, and the goroutine has sent its error before
the caller polls (schedule at least 1): `ServeHTTP` returns 404 with the `not found`
error, records `error` on the `responseStatus` metric, does not touch the cache store, and
has released the lock. -/
theorem all_fail_send_before_poll {κ : Type} (handler : Handler κ) (env : Env κ)
    (w : ResponseWriter) (r : Request) (metrics : Metrics)
    (hm : handler.Config.metrics = some metrics) (hx : metrics.extraLabels = [])
    (hs : shouldUseCache r = true) (hc : env.cacheGet handler.Cache r = none)
    (hfail : ∀ (i : Nat) (h : i < handler.Config.Buckets.length),
      (env.upstream i (handler.Config.Buckets.get ⟨i, h⟩)
        (strings.TrimLeft r.Path "/")).fails)
    (hsched : 0 < env.schedule) :
    (handler.fetchUpstream env r).entry.Response.Code = 404 ∧
    (handler.fetchUpstream env r).err = some "not found" ∧
    (handler.ServeHTTP env w r).result = .ok (404, some "not found") ∧
    statusLabels (handler.ServeHTTP env w r).trace = [some "error"] ∧
    statsCalls (handler.ServeHTTP env w r).trace = [] ∧
    putCalls (handler.ServeHTTP env w r).trace = [] ∧
    lockEvents (handler.ServeHTTP env w r).trace =
      [.adquire (getKey env handler.Config.CacheKeyTemplate r),
       .unlock (getKey env handler.Config.CacheKeyTemplate r)] := by
  have hloop := fetchLoop_all_fail env.upstream (strings.TrimLeft r.Path "/")
    handler.Config.Buckets 0 (by simpa using hfail)
  obtain ⟨h404, herr⟩ := fetchUpstream_not_found handler env r hloop
  have hne : env.schedule ≠ 0 := Nat.pos_iff_ne_zero.mp hsched
  rw [if_neg hne] at herr
  have hfs := fetchUpstream_statsCalls handler env r
  have hfl := fetchUpstream_statusLabels handler env r
  have hfp := fetchUpstream_putCalls handler env r
  have hfk := fetchUpstream_lockEvents handler env r
  unfold statsCalls at hfs
  unfold statusLabels at hfl
  unfold putCalls at hfp
  unfold lockEvents at hfk
  refine ⟨h404, herr, ?_⟩
  rw [ServeHTTP_eligible handler env w r metrics hm hx hs]
  simp [hc, Handler.serveMiss, herr, h404, statusLabels, statsCalls, putCalls, lockEvents,
    hfs, hfl, hfp, hfk]

/-- A rune is fixed by the number of its code point. -/
theorem Char.eq_ofNat_of_toNat_eq {c : Char} {n : Nat} (h : c.toNat = n) :
    c = Char.ofNat n := by
  rw [← h, Char.ofNat_toNat]

/-- The code point of `Char.ofNat m` is `m`, or 0 when `m` is not a code point. -/
theorem Char.toNat_ofNat_or (m : Nat) : (Char.ofNat m).toNat = m ∨ (Char.ofNat m).toNat = 0 := by
  unfold Char.ofNat
  by_cases h : m.isValidChar
  · left
    rw [dif_pos h]
    rfl
  · right
    rw [dif_neg h]
    rfl

set_option maxRecDepth 100000 in
/-- Every range of the case table maps above U+007F, except the two single runes U+0130
and U+212A. -/
theorem lowerRanges_targets :
    ∀ s ∈ lowerRanges, 128 ≤ s.2.2.2 ∨ (s.1 = s.2.1 ∧ (s.1 = 0x130 ∨ s.1 = 0x212A)) := by
  decide

/-- What `sameLetter` says, as a proposition. -/
theorem sameLetter_iff (c p : Char) :
    sameLetter c p = true ↔
      c = p ∨ (97 ≤ p.toNat ∧ p.toNat ≤ 122 ∧ c.toNat + 32 = p.toNat) ∨
      (p = 'k' ∧ c = Char.ofNat 0x212A) ∨ (p = 'i' ∧ c = Char.ofNat 0x130) := by
  simp [sameLetter, or_assoc, and_assoc]

/-- Lower-casing a rune gives the lower-case ASCII letter `p` exactly for the runes that
are `p` when case is ignored. -/
theorem unicode.ToLower_eq_letter_iff (c p : Char) (hp : 97 ≤ p.toNat ∧ p.toNat ≤ 122) :
    unicode.ToLower c = p ↔ sameLetter c p = true := by
  rw [sameLetter_iff]
  have hK : (Char.ofNat 0x212A).toNat = 0x212A := rfl
  have hI : (Char.ofNat 0x130).toNat = 0x130 := rfl
  have hk : ('k' : Char).toNat = 107 := rfl
  have hi : ('i' : Char).toNat = 105 := rfl
  by_cases cK : c = Char.ofNat 0x212A
  · subst cK
    have hl : unicode.ToLower (Char.ofNat 0x212A) = 'k' := by decide
    rw [hl]
    constructor
    · intro h
      exact Or.inr (Or.inr (Or.inl ⟨h.symm, rfl⟩))
    · rintro (h | ⟨-, -, h⟩ | ⟨h, -⟩ | ⟨-, h⟩)
      · have := congrArg Char.toNat h
        rw [hK] at this
        omega
      · rw [hK] at h
        omega
      · exact h.symm
      · have := congrArg Char.toNat h
        rw [hK, hI] at this
        omega
  by_cases cI : c = Char.ofNat 0x130
  · subst cI
    have hl : unicode.ToLower (Char.ofNat 0x130) = 'i' := by decide
    rw [hl]
    constructor
    · intro h
      exact Or.inr (Or.inr (Or.inr ⟨h.symm, rfl⟩))
    · rintro (h | ⟨-, -, h⟩ | ⟨-, h⟩ | ⟨h, -⟩)
      · have := congrArg Char.toNat h
        rw [hI] at this
        omega
      · rw [hI] at h
        omega
      · have := congrArg Char.toNat h
        rw [hK, hI] at this
        omega
      · exact h.symm
  have hrhs : (c = p ∨ (97 ≤ p.toNat ∧ p.toNat ≤ 122 ∧ c.toNat + 32 = p.toNat) ∨
      (p = 'k' ∧ c = Char.ofNat 0x212A) ∨ (p = 'i' ∧ c = Char.ofNat 0x130)) ↔
      (c = p ∨ c.toNat + 32 = p.toNat) := by
    constructor
    · rintro (h | ⟨-, -, h⟩ | ⟨-, h⟩ | ⟨-, h⟩)
      · exact Or.inl h
      · exact Or.inr h
      · exact absurd h cK
      · exact absurd h cI
    · rintro (h | h)
      · exact Or.inl h
      · exact Or.inr (Or.inl ⟨hp.1, hp.2, h⟩)
  rw [hrhs]
  unfold unicode.ToLower
  by_cases hascii : c.toNat ≤ 0x7F
  · rw [if_pos hascii]
    unfold Char.toLower
    simp only
    by_cases hup : c.toNat ≥ 65 ∧ c.toNat ≤ 90
    · rw [if_pos hup]
      constructor
      · intro h
        right
        have h2 := congrArg Char.toNat h
        rcases Char.toNat_ofNat_or (c.toNat + 32) with h3 | h3
        · rw [h3] at h2
          exact h2
        · rw [h3] at h2
          omega
      · rintro (h | h)
        · have := congrArg Char.toNat h
          omega
        · rw [h, Char.ofNat_toNat]
    · rw [if_neg hup]
      constructor
      · intro h
        exact Or.inl h
      · rintro (h | h)
        · exact h
        · exact absurd ⟨by omega, by omega⟩ hup
  · rw [if_neg hascii]
    have hne : ∀ d : Char, 128 ≤ d.toNat ∨ d.toNat = 0 → ¬ (d = p) := by
      intro d hd h
      have := congrArg Char.toNat h
      omega
    have hno : ¬ (c = p ∨ c.toNat + 32 = p.toNat) := by
      rintro (h | h)
      · exact hne c (Or.inl (by omega)) h
      · omega
    constructor
    · intro h
      exfalso
      split at h
      · rename_i s hfind
        have hmem := List.mem_of_find?_eq_some hfind
        have hpred := List.find?_some hfind
        simp only [Bool.and_eq_true, decide_eq_true_eq, beq_iff_eq] at hpred
        rcases lowerRanges_targets s hmem with ht | ⟨h1, h2⟩
        · rcases Char.toNat_ofNat_or (s.2.2.2 + (c.toNat - s.1)) with h3 | h3
          · exact hne _ (Or.inl (by omega)) h
          · exact hne _ (Or.inr h3) h
        · rcases h2 with h2 | h2
          · exact cI (Char.eq_ofNat_of_toNat_eq (by omega))
          · exact cK (Char.eq_ofNat_of_toNat_eq (by omega))
      · exact hne c (Or.inl (by omega)) h
    · intro h
      exact absurd h hno

/-- Lower-casing a list of runes gives a word of lower-case ASCII letters exactly when the
runes spell that word with case ignored. -/
theorem map_ToLower_eq_iff :
    ∀ (cs ps : List Char), (∀ p ∈ ps, 97 ≤ p.toNat ∧ p.toNat ≤ 122) →
      (cs.map unicode.ToLower = ps ↔ sameLetters cs ps = true) := by
  intro cs
  induction cs with
  | nil =>
    intro ps _
    cases ps <;> simp [sameLetters]
  | cons c cs ih =>
    intro ps hps
    cases ps with
    | nil => simp [sameLetters]
    | cons p ps =>
      have hp := hps p (by simp)
      have hrest := ih ps (fun q hq => hps q (by simp [hq]))
      simp only [List.map_cons, List.cons.injEq, sameLetters, Bool.and_eq_true]
      rw [unicode.ToLower_eq_letter_iff c p hp, hrest]

/-- C12.  Eligibility predicate.  For every request, `shouldUseCache` is the predicate of
the specification applied to the method and to the values stored under the header names
`Range`, `Connection` and `Upgrade`, and to nothing else of the request (nor to the
configuration, which it does not receive): it returns true if and only if the method is
exactly `GET` or `HEAD`, the Range value is empty, and it is not the case that the
Connection value equals `upgrade` and the Upgrade value equals `websocket`, both compared
case-insensitively. -/
theorem eligibility_predicate (req : Request) :
    shouldUseCache req =
      eligible req.Method (headerValue req.Header "Range")
        (headerValue req.Header "Connection") (headerValue req.Header "Upgrade") ∧
    (shouldUseCache req = true ↔
      (req.Method = "GET" ∨ req.Method = "HEAD") ∧ headerValue req.Header "Range" = "" ∧
      ¬ (equalsIgnoringCase (headerValue req.Header "Connection") "upgrade" = true ∧
         equalsIgnoringCase (headerValue req.Header "Upgrade") "websocket" = true)) := by
  have hr : req.Header.Get "range" = headerValue req.Header "Range" := rfl
  have hc : req.Header.Get "Connection" = headerValue req.Header "Connection" := rfl
  have hu : req.Header.Get "Upgrade" = headerValue req.Header "Upgrade" := rfl
  have key : ∀ (s word : String), (∀ p ∈ word.data, 97 ≤ p.toNat ∧ p.toNat ≤ 122) →
      (strings.ToLower s = word ↔ equalsIgnoringCase s word = true) := by
    intro s word hw
    unfold strings.ToLower equalsIgnoringCase
    rw [← map_ToLower_eq_iff s.data word.data hw]
    constructor
    · intro h
      rw [← h]
    · intro h
      rw [h]
  have h1 := key (headerValue req.Header "Connection") "upgrade" (by decide)
  have h2 := key (headerValue req.Header "Upgrade") "websocket" (by decide)
  unfold shouldUseCache eligible
  rw [hr, hc, hu]
  by_cases g1 : req.Method = "GET" <;> by_cases g2 : req.Method = "HEAD" <;>
    by_cases g3 : headerValue req.Header "Range" = "" <;>
    by_cases g4 : equalsIgnoringCase (headerValue req.Header "Connection") "upgrade" = true <;>
    by_cases g5 : equalsIgnoringCase (headerValue req.Header "Upgrade") "websocket" = true <;>
    simp [g1, g2, g3, g4, g5, h1, h2]

/-- The eligibility predicate on five requests: an upgrade to websocket in mixed case is
not eligible; an upgrade to another protocol, a Connection header that lists `Upgrade`
next to another option, and an empty Range value are eligible; a lower-case method is
not. -/
theorem shouldUseCache_samples :
    shouldUseCache (sampleRequest "GET"
      [("Connection", ["Upgrade"]), ("Upgrade", ["WebSocket"])]) = false ∧
    shouldUseCache (sampleRequest "GET"
      [("Connection", ["Upgrade"]), ("Upgrade", ["h2c"])]) = true ∧
    shouldUseCache (sampleRequest "GET"
      [("Connection", ["keep-alive, Upgrade"]), ("Upgrade", ["websocket"])]) = true ∧
    shouldUseCache (sampleRequest "GET" [("Range", [""])]) = true ∧
    shouldUseCache (sampleRequest "get" []) = false := by
  decide

/-! ## config.go, setup.go: theorems -/

/-- The outer loop of `parseConfig` assigns `config.metrics` only in its `stats` case:
when the controller never yields the word `stats`, a nil `metrics` stays nil. -/
theorem configBlock_metrics_none {σ : Type} (c : Controller σ) (sys : System)
    (hval : ∀ s, c.Val s ≠ "stats") :
    ∀ (fuel : Nat) (d : σ) (config : Config) (buckets : List Bucket)
      (r : σ × Config × List Bucket),
      config.metrics = none →
      configBlock c sys fuel d config buckets = some (.ok r) → r.2.1.metrics = none := by
  intro fuel
  induction fuel with
  | zero =>
    intro d config buckets r _ h
    simp [configBlock] at h
  | succ n ih =>
    intro d config buckets r hm h
    unfold configBlock at h
    dsimp only at h
    have hs := hval (c.NextBlock d).2
    by_cases hnb : (!(c.NextBlock d).1) = true
    · rw [if_pos hnb] at h
      simp only [Option.some.injEq, Except.ok.injEq] at h
      subst h
      exact hm
    · rw [if_neg hnb] at h
      by_cases hp : c.Val (c.NextBlock d).2 = "status_header"
      · rw [if_pos hp] at h
        repeat' split at h
        all_goals first
          | simp at h
          | exact ih _ _ _ _ (by simpa using hm) h
      rw [if_neg hp] at h
      clear hp
      by_cases hp : c.Val (c.NextBlock d).2 = "lock_timeout"
      · rw [if_pos hp] at h
        repeat' split at h
        all_goals first
          | simp at h
          | exact ih _ _ _ _ (by simpa using hm) h
      rw [if_neg hp] at h
      clear hp
      by_cases hp : c.Val (c.NextBlock d).2 = "default_max_age"
      · rw [if_pos hp] at h
        repeat' split at h
        all_goals first
          | simp at h
          | exact ih _ _ _ _ (by simpa using hm) h
      rw [if_neg hp] at h
      clear hp
      by_cases hp : c.Val (c.NextBlock d).2 = "path"
      · rw [if_pos hp] at h
        repeat' split at h
        all_goals first
          | simp at h
          | exact ih _ _ _ _ (by simpa using hm) h
      rw [if_neg hp] at h
      clear hp
      by_cases hp : c.Val (c.NextBlock d).2 = "match_header"
      · rw [if_pos hp] at h
        repeat' split at h
        all_goals first
          | simp at h
          | exact ih _ _ _ _ (by simpa using hm) h
      rw [if_neg hp] at h
      clear hp
      by_cases hp : c.Val (c.NextBlock d).2 = "match_path"
      · rw [if_pos hp] at h
        repeat' split at h
        all_goals first
          | simp at h
          | exact ih _ _ _ _ (by simpa using hm) h
      rw [if_neg hp] at h
      clear hp
      by_cases hp : c.Val (c.NextBlock d).2 = "cache_key"
      · rw [if_pos hp] at h
        repeat' split at h
        all_goals first
          | simp at h
          | exact ih _ _ _ _ (by simpa using hm) h
      rw [if_neg hp] at h
      clear hp
      by_cases hp : c.Val (c.NextBlock d).2 = "bucket"
      · rw [if_pos hp] at h
        repeat' split at h
        all_goals first
          | simp at h
          | exact ih _ _ _ _ (by simpa using hm) h
      rw [if_neg hp] at h
      clear hp
      rw [if_neg hs] at h
      simp at h

/-- A `parseConfig` that returns without an error, from a controller that never yields
the word `stats`, returns a configuration whose `metrics` pointer is nil. -/
theorem parseConfig_metrics_none {σ : Type} (c : Controller σ) (sys : System)
    (hval : ∀ s, c.Val s ≠ "stats") (fuel : Nat) (d : σ) (config : Option Config)
    (h : parseConfig c sys fuel d = some (config, none)) :
    ∃ cfg, config = some cfg ∧ cfg.metrics = none := by
  unfold parseConfig at h
  dsimp only at h
  split at h
  · simp at h
  · split at h
    · simp at h
    · simp at h
    · rename_i r config1 buckets hcb
      have hm := configBlock_metrics_none c sys hval _ _ _ _ _ rfl hcb
      simp only [Option.some.injEq, Prod.mk.injEq, and_true] at h
      exact ⟨_, h.symm, hm⟩

/-- With a nil `metrics` pointer the first statement of `ServeHTTP`,
`handler.Config.metrics.hostname`, is a nil pointer dereference, for every request. -/
theorem ServeHTTP_nil_metrics {κ : Type} (handler : Handler κ) (env : Env κ)
    (w : ResponseWriter) (r : Request) (hm : handler.Config.metrics = none) :
    (handler.ServeHTTP env w r).result = .error .nilPointerDereference ∧
    (handler.ServeHTTP env w r).trace = [] := by
  simp [Handler.ServeHTTP, hm]

/-- The word under the cursor of a dispenser is the text of one of its tokens, or empty. -/
theorem Dispenser.Val_mem (tokens : List Token) (d : Dispenser) :
    Dispenser.Val tokens d = "" ∨ ∃ t ∈ tokens, t.Text = Dispenser.Val tokens d := by
  unfold Dispenser.Val tokenAt
  split
  · rename_i t ht
    right
    split at ht
    · exact ⟨t, List.get?_mem ht, rfl⟩
    · simp at ht
  · left
    rfl

/-- A dispenser over tokens none of which is the word `stats` never yields it. -/
theorem caddyController_no_stats (filename key : String) (tokens : List Token)
    (h : ∀ t ∈ tokens, t.Text ≠ "stats") (s : Dispenser) :
    (caddyController filename key tokens).Val s ≠ "stats" := by
  show Dispenser.Val tokens s ≠ "stats"
  rcases Dispenser.Val_mem tokens s with h0 | ⟨t, ht, hv⟩
  · rw [h0]
    decide
  · rw [← hv]
    exact h t ht

/-- C11 fails on the code.  For every controller that never yields the word `stats` (a
block with no stats section): a `parseConfig` that returns without an error returns a
configuration whose `metrics` pointer is nil; `setup` then never completes with a nil
error (it returns an error, or panics on `config.metrics.handler = ...`); and the
handler that `NewHandler` builds from that configuration ends every `ServeHTTP` call in
the nil dereference `handler.Config.metrics.hostname`, before any other call. -/
theorem absent_metrics_dereferenced {σ κ : Type} (c : Controller σ) (sys : System)
    (newCache : String → κ) (first : Bool) (fuel : Nat) (d : σ)
    (hval : ∀ s, c.Val s ≠ "stats") :
    (∀ config, parseConfig c sys fuel d = some (config, none) →
      ∃ cfg, config = some cfg ∧ cfg.metrics = none ∧
        (∀ (env : Env κ) (w : ResponseWriter) (r : Request),
          ((NewHandler newCache cfg).ServeHTTP env w r).result =
            .error .nilPointerDereference ∧
          ((NewHandler newCache cfg).ServeHTTP env w r).trace = []) ∧
        ((sys.statNotExist cfg.Path = true → sys.Mkdir cfg.Path = none) →
          setup c sys newCache first fuel d = some (.error .nilPointerDereference))) ∧
    (∀ installed, setup c sys newCache first fuel d ≠ some (.ok (.ok installed))) := by
  refine ⟨?_, ?_⟩
  · intro config h
    obtain ⟨cfg, hc, hm⟩ := parseConfig_metrics_none c sys hval fuel d config h
    subst hc
    refine ⟨cfg, rfl, hm, ?_, ?_⟩
    · intro env w r
      exact ServeHTTP_nil_metrics (NewHandler newCache cfg) env w r hm
    · intro hdir
      unfold setup
      rw [h]
      by_cases hst : sys.statNotExist cfg.Path = true
      · simp [hst, hdir hst, hm]
      · simp [hst, hm]
  · intro installed hset
    unfold setup at hset
    split at hset
    · simp at hset
    · simp at hset
    · simp at hset
    · rename_i cfg hp
      obtain ⟨cfg1, hc, hm⟩ := parseConfig_metrics_none c sys hval fuel d _ hp
      simp only [Option.some.injEq] at hc
      subst hc
      dsimp only at hset
      split at hset
      · simp at hset
      · rw [hm] at hset
        simp at hset

/-- The failing input of C11: a `gcs` block with a cache directory (which exists) and a
bucket, and no stats section.  `parseConfig` returns a configuration with a nil `metrics`
pointer and no error, `setup` panics with a nil pointer dereference, and a handler built
from that configuration panics on a plain GET request. -/
theorem absent_metrics_dereferenced_witness :
    (∃ cfg, parseConfig (caddyController "Caddyfile" "example.org:80" blockWithoutStats)
        sampleSystem 20 NewDispenserTokens = some (some cfg, none) ∧
      cfg.metrics = none ∧ cfg.Path = "/var/cache/gcs" ∧
      ((NewHandler (fun _ => ([] : KeyedStore)) cfg).ServeHTTP (sampleEnv true none 0)
        sampleWriter (sampleRequest "GET" [])).result = .error .nilPointerDereference) ∧
    setup (caddyController "Caddyfile" "example.org:80" blockWithoutStats) sampleSystem
      (fun _ => ([] : KeyedStore)) true 20 NewDispenserTokens =
      some (.error .nilPointerDereference) := by
  have hval := caddyController_no_stats "Caddyfile" "example.org:80" blockWithoutStats
    (by decide)
  have h := absent_metrics_dereferenced
    (caddyController "Caddyfile" "example.org:80" blockWithoutStats) sampleSystem
    (fun _ => ([] : KeyedStore)) true 20 NewDispenserTokens hval
  have hp : parseConfig (caddyController "Caddyfile" "example.org:80" blockWithoutStats)
      sampleSystem 20 NewDispenserTokens =
      some (some { emptyConfig with Path := "/var/cache/gcs", Buckets :=
        [{ Name := "a", Credentials := { GoogleAccessID := "id", PrivateKey := "key" } }] },
        none) := by
    rfl
  obtain ⟨cfg, hc, hm, hserve, hsetup⟩ := h.1 _ hp
  simp only [Option.some.injEq] at hc
  subst hc
  exact ⟨⟨_, hp, hm, rfl, (hserve (sampleEnv true none 0) sampleWriter
    (sampleRequest "GET" [])).1⟩, hsetup (fun _ => rfl)⟩

/-- The same block with a stats section holding a prometheus block: `parseConfig` sets
`metrics`, and `setup` completes and registers the cache handler. -/
theorem setup_with_stats_completes :
    ∃ installed, setup (caddyController "Caddyfile" "example.org:80" blockWithStats)
      sampleSystem (fun _ => ([] : KeyedStore)) true 20 NewDispenserTokens =
      some (.ok (.ok installed)) ∧
      installed.handler.Config.metrics = some { NewMetrics with hostname := "proxy" } ∧
      installed.metricsPath = none :=
  ⟨_, rfl, rfl, rfl⟩

end GcsProxy
